import Mathlib

/-!
Verification development for the textmation scene builder.

Embedded from the repository sources:
- `src/textmation/scenebuilder.py` (the `SceneBuilder` tree-walking interpreter)
- `src/textmation/elements/drawables.py` (the drawable element types and
  their `on_ready` default-property hooks)

The repository modules `elements/element.py`, `datatypes.py`, `parser.py` and
`functions.py` are not part of the sources; where a claim depends on them the
corresponding definitions are modelled from the specification and say so in
their doc comments.  Machine floats of the Python code are modelled as exact
rationals; file paths are plain strings, and the filesystem is an explicit
lookup function.  Source-span tokens are omitted from diagnostics (this
corresponds to the `token=None` path of `SceneBuilder._create_error`).
-/

namespace Textmation

/-- Angle units.  Modelled from the spec: `datatypes.py` is not under `src/`;
the spec (§3) lists angle units deg and rad. -/
inductive AngleUnit where
  | degrees
  | radians
deriving DecidableEq, Repr

/-- Time units.  Modelled from the spec: `datatypes.py` is not under `src/`;
the spec (§3) lists duration units s, ms. -/
inductive TimeUnit where
  | seconds
  | milliseconds
deriving DecidableEq, Repr

/-- Runtime values.  Modelled from the spec (§3 Value): `datatypes.py` is not
under `src/`.  Variants: Number, Percentage, Angle, Duration, String, Vec4,
enum members and flag members (carrying their type name and numeric value),
plus element handles (an expression may evaluate to an `Element`, see
`SceneBuilder._build_MemberAccess`). -/
inductive Val where
  | num (v : ℚ)
  | pct (v : ℚ)
  | angle (v : ℚ) (u : AngleUnit)
  | time (v : ℚ) (u : TimeUnit)
  | str (s : String)
  | vec4 (r g b a : ℚ)
  | enumMember (ty : String) (v : Int)
  | flagMember (ty : String) (bits : Int)
  | elemRef (eid : Nat)
deriving DecidableEq, Repr

/-- Expressions.  Modelled from the spec (§3 Expression): `datatypes.py` is
not under `src/`.  A `propRef eid name` stands for the `Property` object of
element `eid` that Python code captures via `element.get(name)` (the builder
binds references to the owning element at build time, see
`SceneBuilder._get_property` and `SceneBuilder._build_Name`); evaluating it
re-reads that property's current expression. -/
inductive Expr where
  | lit (v : Val)
  | unaryOp (op : String) (operand : Expr)
  | binOp (op : String) (lhs rhs : Expr)
  | call (fname : String) (args : List Expr)
  | propRef (eid : Nat) (pname : String)

mutual

/-- Property-reference pairs occurring in an expression (used by the
cycle search of `set`, spec §4.1/§4.2). -/
def exprRefs : Expr → List (Nat × String)
  | .lit _ => []
  | .unaryOp _ e => exprRefs e
  | .binOp _ l r => exprRefs l ++ exprRefs r
  | .call _ args => exprRefsList args
  | .propRef eid n => [(eid, n)]

/-- Property-reference pairs of an argument list, left to right. -/
def exprRefsList : List Expr → List (Nat × String)
  | [] => []
  | e :: es => exprRefs e ++ exprRefsList es

end

/-- One property of an element (spec §3 Property): name, current
expression-or-value, declared type alternatives, the `ReadOnly` and
`Constant` flags, and the optional relative-dimension tag.  Modelled from the
spec: the `Property` class lives in `elements/element.py`, not under `src/`. -/
structure PropEntry where
  name : String
  value : Expr
  types : List String
  readonly : Bool
  constant : Bool
  relative : Option String

/-- One element of the scene tree: its concrete type name
(`__class__.__name__`), parent back-reference, ordered children and ordered
property table.  Elements live in an arena indexed by `Nat`; construction
order gives every element an id larger than its parent's. -/
structure Elem where
  type : String
  parent : Option Nat
  children : List Nat
  props : List PropEntry

/-- Arena lookup. -/
def getElemOpt (elems : List Elem) (eid : Nat) : Option Elem := elems[eid]?

/-- Direct property lookup on one element (`Element.get`, spec §4.2: does not
search ancestors).  Modelled from the spec: `elements/element.py` is not
under `src/`. -/
def elemGet (e : Elem) (name : String) : Option PropEntry :=
  e.props.find? (fun p => p.name == name)

/-- In-place mutation of the arena element at one index (Python mutates the
object; the arena is rebuilt with that one element replaced). -/
def updateAt (elems : List Elem) (eid : Nat) (f : Elem → Elem) : List Elem :=
  match elems, eid with
  | [], _ => []
  | e :: rest, 0 => f e :: rest
  | e :: rest, n + 1 => e :: updateAt rest n f

/-- Replace the stored expression of property `name` on element `eid`,
keeping flags, types and relative tag (spec §4.2 set: "replaces the stored
expression-or-value"). -/
def updatePropValue (elems : List Elem) (eid : Nat) (name : String) (v : Expr) :
    List Elem :=
  updateAt elems eid fun e =>
    { e with props := e.props.map fun p =>
        if p.name == name then { p with value := v } else p }

/-- Static type tag of a value (spec §4.2: the declared type of a property
defaults to what its initial value carries).  Modelled from the spec:
`datatypes.py` is not under `src/`. -/
def tagOfVal : Val → String
  | .num _ => "Number"
  | .pct _ => "Percentage"
  | .angle _ _ => "Angle"
  | .time _ _ => "Time"
  | .str _ => "String"
  | .vec4 _ _ _ _ => "Vec4"
  | .enumMember ty _ => ty
  | .flagMember ty _ => ty
  | .elemRef _ => "Element"

/-- Static type tag an expression carries (spec §4.2: "what the new
expression statically carries, when type context is available").  Modelled
from the spec: `datatypes.py` is not under `src/`; operators take the tag of
their left operand, a property reference the referred property's declared
tag. -/
def tagOfExpr (elems : List Elem) : Expr → String
  | .lit v => tagOfVal v
  | .unaryOp _ e => tagOfExpr elems e
  | .binOp _ l _ => tagOfExpr elems l
  | .call _ _ => "Unknown"
  | .propRef eid n =>
    match (getElemOpt elems eid).bind (fun e => elemGet e n) with
    | some p => p.types.headD "Unknown"
    | none => "Unknown"

/-- Errors raised by the element property table (`ElementError` hierarchy of
`elements/element.py`, imported by `scenebuilder.py`): double define,
missing property (`KeyError`), readonly / constant violations, and the
circular-reference error that carries the offending paths
(`CircularReferenceError.paths`). -/
inductive ElemErr where
  | defined (name : String)
  | undefined (name : String)
  | readonlyErr (name : String)
  | constantErr (name : String)
  | circular (paths : List (List (Nat × String)))
  | pyCrash (what : String)

/-- Modelled from the spec (§4.2 define): `elements/element.py` is not under
`src/`.  Fails if the name exists, otherwise inserts at the end of the
table; the declared type list defaults to the tag of the initial value. -/
def defineOn (elems : List Elem) (eid : Nat) (name : String) (value : Expr)
    (types : List String) (readonly constant : Bool) (relative : Option String) :
    Except ElemErr (List Elem) :=
  match getElemOpt elems eid with
  | none => .error (.undefined name)
  | some e =>
    match elemGet e name with
    | some _ => .error (.defined name)
    | none =>
      let entry : PropEntry :=
        { name := name, value := value
          types := if types.isEmpty then [tagOfExpr elems value] else types
          readonly := readonly, constant := constant, relative := relative }
      .ok (updateAt elems eid fun el => { el with props := el.props ++ [entry] })

/-- Dependency edges of one (element, property) pair, as followed by
evaluation (spec §4.1): the property references inside its stored expression
plus, when the property carries a relative-dimension tag, the parent's
property of that name. -/
def propEdges (elems : List Elem) (eid : Nat) (name : String) :
    List (Nat × String) :=
  match getElemOpt elems eid with
  | none => []
  | some e =>
    match elemGet e name with
    | none => []
    | some p =>
      exprRefs p.value ++
        (match p.relative, e.parent with
         | some dim, some pid => [(pid, dim)]
         | _, _ => [])

/-- Depth-first search for circular property references reachable from a
pair, carrying the visitation stack of (element, property) pairs (spec
§4.1).  A found cycle is reported as the stack from the first occurrence of
the repeated pair back to the repeat.  Modelled from the spec:
`elements/element.py` is not under `src/`. -/
def findCyclesFrom (elems : List Elem) :
    Nat → List (Nat × String) → (Nat × String) → List (List (Nat × String))
  | 0, _, _ => []
  | fuel + 1, stack, pair =>
    if pair ∈ stack then
      [stack.dropWhile (fun q => q ≠ pair) ++ [pair]]
    else
      ((propEdges elems pair.1 pair.2).map fun edge =>
        findCyclesFrom elems fuel (stack ++ [pair]) edge).flatten

/-- Total number of (element, property) pairs of the arena; bounds the depth
of any reference chain without a repeat. -/
def totalPairs (elems : List Elem) : Nat :=
  (elems.map fun e => e.props.length).sum

/-- Modelled from the spec (§4.2 set): `elements/element.py` is not under
`src/`.  Fails if the property is absent, if `ReadOnly` or `Constant` is
set, or — after tentatively storing the new expression — if a cycle is
reachable from this property; on success the stored expression is
replaced. -/
def setProp (elems : List Elem) (eid : Nat) (name : String) (v : Expr) :
    Except ElemErr (List Elem) :=
  match getElemOpt elems eid with
  | none => .error (.undefined name)
  | some e =>
    match elemGet e name with
    | none => .error (.undefined name)
    | some p =>
      if p.readonly then .error (.readonlyErr name)
      else if p.constant then .error (.constantErr name)
      else
        let elems' := updatePropValue elems eid name v
        match findCyclesFrom elems' (totalPairs elems' + 2) [] (eid, name) with
        | [] => .ok elems'
        | paths => .error (.circular paths)

/-- Evaluation-time failures (spec §4.1): circular reference (with its
path), undefined property, unit type errors, division by zero, unknown
function, a value that is not an element where one is required, and fuel
exhaustion (a modelling artifact standing for non-termination). -/
inductive EvalErr where
  | circularEval (path : List (Nat × String))
  | undefinedProp (name : String)
  | typeMismatch
  | divisionByZero
  | unknownFunction (fname : String)
  | badElement
  | fuelOut

/-- Exact rational addition, written through `mkRat` so that every
arithmetic step is kernel-computable (the magnitudes stand for Python's
floats; the spec's examples are exact). -/
def qadd (a b : ℚ) : ℚ :=
  mkRat (a.num * (b.den : Int) + b.num * (a.den : Int)) (a.den * b.den)

/-- Exact rational subtraction through `mkRat`. -/
def qsub (a b : ℚ) : ℚ :=
  mkRat (a.num * (b.den : Int) - b.num * (a.den : Int)) (a.den * b.den)

/-- Exact rational multiplication through `mkRat`. -/
def qmul (a b : ℚ) : ℚ := mkRat (a.num * b.num) (a.den * b.den)

/-- Exact rational division through `mkRat` (callers guard the zero
divisor). -/
def qdiv (a b : ℚ) : ℚ :=
  let n := a.num * (b.den : Int)
  let d := (a.den : Int) * b.num
  mkRat (if d < 0 then -n else n) d.natAbs

/-- Exact rational negation through `mkRat`. -/
def qneg (a : ℚ) : ℚ := mkRat (-a.num) a.den

/-- Number-by-number arithmetic (spec §4.1: `Number ⊕ Number → Number`,
division by zero is a runtime error). -/
def numArith (op : String) (a b : ℚ) : Except EvalErr ℚ :=
  if op == "+" then .ok (qadd a b)
  else if op == "-" then .ok (qsub a b)
  else if op == "*" then .ok (qmul a b)
  else if op == "/" then
    if b = 0 then .error .divisionByZero else .ok (qdiv a b)
  else .error .typeMismatch

/-- Scaling a unit-tagged magnitude by a plain number (spec §4.1:
`UnitValue × Number → UnitValue`, `UnitValue ÷ Number → UnitValue`). -/
def scaleArith (op : String) (a b : ℚ) : Except EvalErr ℚ :=
  if op == "*" then .ok (qmul a b)
  else if op == "/" then
    if b = 0 then .error .divisionByZero else .ok (qdiv a b)
  else .error .typeMismatch

/-- Binary operator application under the unit-coercion rules of spec §4.1.
Modelled from the spec: `datatypes.py` is not under `src/`. -/
def applyBinOp (op : String) (l r : Val) : Except EvalErr Val :=
  match l, r with
  | .num a, .num b => (numArith op a b).map .num
  | .pct a, .pct b =>
    if op == "+" then .ok (.pct (qadd a b))
    else if op == "-" then .ok (.pct (qsub a b))
    else .error .typeMismatch
  | .angle a u, .angle b u' =>
    if u = u' then
      if op == "+" then .ok (.angle (qadd a b) u)
      else if op == "-" then .ok (.angle (qsub a b) u)
      else .error .typeMismatch
    else .error .typeMismatch
  | .time a u, .time b u' =>
    if u = u' then
      if op == "+" then .ok (.time (qadd a b) u)
      else if op == "-" then .ok (.time (qsub a b) u)
      else .error .typeMismatch
    else .error .typeMismatch
  | .pct a, .num b => (scaleArith op a b).map .pct
  | .angle a u, .num b => (scaleArith op a b).map (.angle · u)
  | .time a u, .num b => (scaleArith op a b).map (.time · u)
  | _, _ => .error .typeMismatch

/-- Unary operator application (spec §4.1: negate preserves the unit,
identity likewise).  Modelled from the spec: `datatypes.py` is not under
`src/`. -/
def applyUnaryOp (op : String) (v : Val) : Except EvalErr Val :=
  if op == "-" then
    match v with
    | .num a => .ok (.num (qneg a))
    | .pct a => .ok (.pct (qneg a))
    | .angle a u => .ok (.angle (qneg a) u)
    | .time a u => .ok (.time (qneg a) u)
    | _ => .error .typeMismatch
  else if op == "+" then .ok v
  else .error .typeMismatch

/-- The external function registry (spec §6): an opaque-to-the-core mapping
from names to callables whose argument checking is their own business. -/
def FuncTable : Type := String → Option (List Val → Except EvalErr Val)

mutual

/-- Modelled from the spec (§4.1 evaluate): `datatypes.py` is not under
`src/`.  Pure recursive evaluation of an expression in the context of the
current property tables, carrying the visitation stack of
(element, property) pairs for cycle detection. -/
def evalExpr (funcs : FuncTable) (elems : List Elem) :
    Nat → List (Nat × String) → Expr → Except EvalErr Val
  | 0, _, _ => .error .fuelOut
  | fuel + 1, stack, e =>
    match e with
    | .lit v => .ok v
    | .unaryOp op a => do
      let va ← evalExpr funcs elems fuel stack a
      applyUnaryOp op va
    | .binOp op l r => do
      let vl ← evalExpr funcs elems fuel stack l
      let vr ← evalExpr funcs elems fuel stack r
      applyBinOp op vl vr
    | .call fname args => do
      let vs ← evalArgs funcs elems fuel stack args
      match funcs fname with
      | some f => f vs
      | none => .error (.unknownFunction fname)
    | .propRef eid n => evalProp funcs elems fuel stack eid n

/-- Left-to-right evaluation of call arguments (spec §4.1 Call). -/
def evalArgs (funcs : FuncTable) (elems : List Elem) :
    Nat → List (Nat × String) → List Expr → Except EvalErr (List Val)
  | 0, _, _ => .error .fuelOut
  | _ + 1, _, [] => .ok []
  | fuel + 1, stack, a :: rest => do
    let v ← evalExpr funcs elems fuel stack a
    let vs ← evalArgs funcs elems fuel stack rest
    .ok (v :: vs)

/-- Modelled from the spec (§4.1): evaluation of one property in the context
of its owning element.  Re-entering a pair already on the stack fails with a
circular-reference error reporting the stack from the first occurrence back
to the repeat; a Percentage result with a relative-dimension tag is resolved
against the parent's property of that name, recursively. -/
def evalProp (funcs : FuncTable) (elems : List Elem) :
    Nat → List (Nat × String) → Nat → String → Except EvalErr Val
  | 0, _, _, _ => .error .fuelOut
  | fuel + 1, stack, eid, name =>
    if (eid, name) ∈ stack then
      .error (.circularEval
        (stack.dropWhile (fun q => q ≠ (eid, name)) ++ [(eid, name)]))
    else
      match getElemOpt elems eid with
      | none => .error .badElement
      | some e =>
        match elemGet e name with
        | none => .error (.undefinedProp name)
        | some p => do
          let v ← evalExpr funcs elems fuel (stack ++ [(eid, name)]) p.value
          match v, p.relative, e.parent with
          | .pct q, some dim, some pid => do
            let pv ← evalProp funcs elems fuel (stack ++ [(eid, name)]) pid dim
            match pv with
            | .num n => .ok (.num (qdiv (qmul q n) 100))
            | _ => .error .typeMismatch
          | v', _, _ => .ok v'

end

/-- Python `repr` of a (quote-free) string, as used by the `{name!r}`
formatting of the builder's messages. -/
def pyrepr (s : String) : String := "'" ++ s ++ "'"

/-- Direct superclass of each element type, read off the class declarations
of `drawables.py`.  `Scene` and `Animation`: modelled from the spec
(`elements/element.py` and `elements/animation.py` are not under `src/`;
the Scene is the root canvas holding drawables, Animation a plain
element). -/
def classParent : String → Option String
  | "Rectangle" => some "Drawable"
  | "Circle" => some "Drawable"
  | "Ellipse" => some "Drawable"
  | "Arc" => some "Ellipse"
  | "Line" => some "Drawable"
  | "Image" => some "Drawable"
  | "Text" => some "Drawable"
  | "Drawable" => some "BaseDrawable"
  | "BaseDrawable" => some "Element"
  | "Scene" => some "BaseDrawable"
  | "Animation" => some "Element"
  | _ => none

/-- Fuelled walk up `classParent`; the hierarchy has depth below 8. -/
def isSubclassOf : Nat → String → String → Bool
  | 0, _, _ => false
  | fuel + 1, t, anc =>
    t == anc ||
      (match classParent t with
       | some p => isSubclassOf fuel p anc
       | none => false)

/-- Subclass test over the element class hierarchy (Python
`isinstance`). -/
def subclassOf (t anc : String) : Bool := isSubclassOf 8 t anc

/-- The type is `Drawable` or one of its subclasses. -/
def isDrawableType (t : String) : Bool := subclassOf t "Drawable"

/-- The type is `Animation` or one of its subclasses. -/
def isAnimationType (t : String) : Bool := subclassOf t "Animation"

/-- The type is `BaseDrawable` or one of its subclasses. -/
def isBaseDrawableType (t : String) : Bool := subclassOf t "BaseDrawable"

/-- Containment rule applied when attaching a child (`BaseDrawable.add`,
`drawables.py` lines 17-25): a `BaseDrawable` parent accepts only `Drawable`
and `Animation` children and raises `NotImplementedError` otherwise.  For
non-`BaseDrawable` parents the base `Element.add` applies, modelled from the
spec as accepting (`elements/element.py` is not under `src/`). -/
def addAccepts (parentType childType : String) : Bool :=
  if isBaseDrawableType parentType then
    isDrawableType childType || isAnimationType childType
  else
    true

/-- The registered enum and flag types with their members and values, read
off `drawables.py` (`TextAnchor` with `Center = CenterX | CenterY`,
`TextAlignment` with `auto()` ordinals); `.box()` of a member yields the
corresponding flag/enum value. -/
def enumMembersOf : String → Option (List (String × Val))
  | "TextAnchor" => some
      [("Left", .flagMember "TextAnchor" 1), ("CenterX", .flagMember "TextAnchor" 2),
       ("Right", .flagMember "TextAnchor" 4), ("Top", .flagMember "TextAnchor" 8),
       ("CenterY", .flagMember "TextAnchor" 16), ("Bottom", .flagMember "TextAnchor" 32),
       ("Center", .flagMember "TextAnchor" 18), ("Default", .flagMember "TextAnchor" 18)]
  | "TextAlignment" => some
      [("Left", .enumMember "TextAlignment" 1), ("Center", .enumMember "TextAlignment" 2),
       ("Right", .enumMember "TextAlignment" 3), ("Default", .enumMember "TextAlignment" 1)]
  | _ => none

/-- `element.get(name)` as it appears inside the `on_ready` hooks of
`drawables.py`: returns (a reference to) the element's own property, raising
`KeyError` when absent. -/
def getRef (elems : List Elem) (eid : Nat) (name : String) : Except ElemErr Expr :=
  match (getElemOpt elems eid).bind (elemGet · name) with
  | some _ => .ok (.propRef eid name)
  | none => .error (.undefined name)

/-- `self.parent.children.index(self)` of `Drawable.on_ready`; fails (Python
`AttributeError`) when the element has no parent. -/
def indexInParent (elems : List Elem) (eid : Nat) : Except ElemErr ℚ :=
  match (getElemOpt elems eid).bind (·.parent) with
  | none => .error (.pyCrash "AttributeError")
  | some pid =>
    match getElemOpt elems pid with
    | none => .error (.pyCrash "AttributeError")
    | some p => .ok (mkRat (p.children.indexOf eid : Int) 1)

/-- `Drawable.on_ready` (`drawables.py` lines 28-37): defines `index`
(readonly, constant), `x`, `y` (0, relative to the parent's width/height)
and `width`, `height` (100%, relative). -/
def drawableOnReady (elems : List Elem) (eid : Nat) : Except ElemErr (List Elem) := do
  let idx ← indexInParent elems eid
  let elems ← defineOn elems eid "index" (.lit (.num idx)) [] true true none
  let elems ← defineOn elems eid "x" (.lit (.num 0)) [] false false (some "width")
  let elems ← defineOn elems eid "y" (.lit (.num 0)) [] false false (some "height")
  let elems ← defineOn elems eid "width" (.lit (.pct 100)) [] false false (some "width")
  defineOn elems eid "height" (.lit (.pct 100)) [] false false (some "height")

/-- `Rectangle.on_ready` (`drawables.py` lines 40-48). -/
def rectangleOnReady (elems : List Elem) (eid : Nat) : Except ElemErr (List Elem) := do
  let elems ← drawableOnReady elems eid
  let elems ← defineOn elems eid "color" (.lit (.vec4 255 255 255 255)) [] false false none
  let c ← getRef elems eid "color"
  let elems ← defineOn elems eid "fill" c [] false false none
  let elems ← defineOn elems eid "outline" (.lit (.vec4 0 0 0 0)) ["Vec4"] false false none
  defineOn elems eid "outline_width" (.lit (.num 1)) [] false false none

/-- `Circle.on_ready` (`drawables.py` lines 51-76): defines `center_x`,
`center_y`, `diameter` (100%, relative to width) and
`radius` (= `diameter / 2`), then reassigns `x`, `y` and sets `width` and
`height` to `radius * 2`, then the fill/outline defaults. -/
def circleOnReady (elems : List Elem) (eid : Nat) : Except ElemErr (List Elem) := do
  let elems ← drawableOnReady elems eid
  let w ← getRef elems eid "width"
  let elems ← defineOn elems eid "center_x"
    (.binOp "-" (.lit (.pct 50)) (.binOp "/" w (.lit (.num 2)))) [] false false (some "width")
  let h ← getRef elems eid "height"
  let elems ← defineOn elems eid "center_y"
    (.binOp "-" (.lit (.pct 50)) (.binOp "/" h (.lit (.num 2)))) [] false false (some "height")
  let elems ← defineOn elems eid "diameter" (.lit (.pct 100)) [] false false (some "width")
  let d ← getRef elems eid "diameter"
  let elems ← defineOn elems eid "radius"
    (.binOp "/" d (.lit (.num 2))) [] false false (some "width")
  let cx ← getRef elems eid "center_x"
  let w2 ← getRef elems eid "width"
  let elems ← setProp elems eid "x" (.binOp "-" cx (.binOp "/" w2 (.lit (.num 2))))
  let cy ← getRef elems eid "center_y"
  let h2 ← getRef elems eid "height"
  let elems ← setProp elems eid "y" (.binOp "-" cy (.binOp "/" h2 (.lit (.num 2))))
  let r ← getRef elems eid "radius"
  let elems ← setProp elems eid "width" (.binOp "*" r (.lit (.num 2)))
  let r2 ← getRef elems eid "radius"
  let elems ← setProp elems eid "height" (.binOp "*" r2 (.lit (.num 2)))
  let elems ← defineOn elems eid "color" (.lit (.vec4 255 255 255 255)) [] false false none
  let c ← getRef elems eid "color"
  let elems ← defineOn elems eid "fill" c [] false false none
  let elems ← defineOn elems eid "outline" (.lit (.vec4 0 0 0 0)) ["Vec4"] false false none
  defineOn elems eid "outline_width" (.lit (.num 1)) [] false false none

/-- `Ellipse.on_ready` (`drawables.py` lines 79-109). -/
def ellipseOnReady (elems : List Elem) (eid : Nat) : Except ElemErr (List Elem) := do
  let elems ← drawableOnReady elems eid
  let w ← getRef elems eid "width"
  let elems ← defineOn elems eid "center_x"
    (.binOp "-" (.lit (.pct 50)) (.binOp "/" w (.lit (.num 2)))) [] false false (some "width")
  let h ← getRef elems eid "height"
  let elems ← defineOn elems eid "center_y"
    (.binOp "-" (.lit (.pct 50)) (.binOp "/" h (.lit (.num 2)))) [] false false (some "height")
  let elems ← defineOn elems eid "diameter" (.lit (.pct 100)) [] false false (some "width")
  let d ← getRef elems eid "diameter"
  let elems ← defineOn elems eid "radius"
    (.binOp "/" d (.lit (.num 2))) [] false false (some "width")
  let d1 ← getRef elems eid "diameter"
  let elems ← defineOn elems eid "diameter_x" d1 [] false false (some "width")
  let d2 ← getRef elems eid "diameter"
  let elems ← defineOn elems eid "diameter_y" d2 [] false false (some "height")
  let dx ← getRef elems eid "diameter_x"
  let elems ← defineOn elems eid "radius_x"
    (.binOp "/" dx (.lit (.num 2))) [] false false (some "width")
  let dy ← getRef elems eid "diameter_y"
  let elems ← defineOn elems eid "radius_y"
    (.binOp "/" dy (.lit (.num 2))) [] false false (some "height")
  let cx ← getRef elems eid "center_x"
  let w2 ← getRef elems eid "width"
  let elems ← setProp elems eid "x" (.binOp "-" cx (.binOp "/" w2 (.lit (.num 2))))
  let cy ← getRef elems eid "center_y"
  let h2 ← getRef elems eid "height"
  let elems ← setProp elems eid "y" (.binOp "-" cy (.binOp "/" h2 (.lit (.num 2))))
  let rx ← getRef elems eid "radius_x"
  let elems ← setProp elems eid "width" (.binOp "*" rx (.lit (.num 2)))
  let ry ← getRef elems eid "radius_y"
  let elems ← setProp elems eid "height" (.binOp "*" ry (.lit (.num 2)))
  let elems ← defineOn elems eid "color" (.lit (.vec4 255 255 255 255)) [] false false none
  let c ← getRef elems eid "color"
  let elems ← defineOn elems eid "fill" c [] false false none
  let elems ← defineOn elems eid "outline" (.lit (.vec4 0 0 0 0)) ["Vec4"] false false none
  defineOn elems eid "outline_width" (.lit (.num 1)) [] false false none

/-- `Arc.on_ready` (`drawables.py` lines 112-117): Ellipse defaults plus
start and end angles. -/
def arcOnReady (elems : List Elem) (eid : Nat) : Except ElemErr (List Elem) := do
  let elems ← ellipseOnReady elems eid
  let elems ← defineOn elems eid "start_angle"
    (.lit (.angle 0 .degrees)) [] false false none
  defineOn elems eid "end_angle" (.lit (.angle 360 .degrees)) [] false false none

/-- `Line.on_ready` (`drawables.py` lines 120-138). -/
def lineOnReady (elems : List Elem) (eid : Nat) : Except ElemErr (List Elem) := do
  let elems ← drawableOnReady elems eid
  let elems ← defineOn elems eid "x1" (.lit (.num 0)) [] false false (some "width")
  let elems ← defineOn elems eid "y1" (.lit (.num 0)) [] false false (some "height")
  let elems ← defineOn elems eid "x2" (.lit (.num 0)) [] false false (some "width")
  let elems ← defineOn elems eid "y2" (.lit (.num 0)) [] false false (some "height")
  let x1 ← getRef elems eid "x1"
  let elems ← setProp elems eid "x" x1
  let y1 ← getRef elems eid "y1"
  let elems ← setProp elems eid "y" y1
  let elems ← defineOn elems eid "color" (.lit (.vec4 255 255 255 255)) [] false false none
  let c ← getRef elems eid "color"
  let elems ← defineOn elems eid "fill" c [] false false none
  setProp elems eid "width" (.lit (.num 1))

/-- `Image.on_ready` (`drawables.py` lines 141-145). -/
def imageOnReady (elems : List Elem) (eid : Nat) : Except ElemErr (List Elem) := do
  let elems ← drawableOnReady elems eid
  defineOn elems eid "filename" (.lit (.str "")) [] false true none

/-- `Text.on_ready` (`drawables.py` lines 168-184). -/
def textOnReady (elems : List Elem) (eid : Nat) : Except ElemErr (List Elem) := do
  let elems ← drawableOnReady elems eid
  let elems ← setProp elems eid "x" (.lit (.pct 50))
  let elems ← setProp elems eid "y" (.lit (.pct 50))
  let elems ← defineOn elems eid "text" (.lit (.str "")) [] false true none
  let elems ← defineOn elems eid "font" (.lit (.str "arial")) [] false true none
  let elems ← defineOn elems eid "font_size" (.lit (.num 32)) [] false false none
  let elems ← defineOn elems eid "anchor"
    (.lit (.flagMember "TextAnchor" 18)) [] false true none
  let elems ← defineOn elems eid "alignment"
    (.lit (.enumMember "TextAlignment" 1)) [] false true none
  let elems ← defineOn elems eid "color" (.lit (.vec4 255 255 255 255)) [] false false none
  let c ← getRef elems eid "color"
  defineOn elems eid "fill" c [] false false none

/-- Modelled from the spec (§3 Scene): `elements/element.py` is not under
`src/`.  The Scene declares concrete, non-relative `width` and `height`
defaults; the concrete default magnitudes are not specified, so 0 is
used. -/
def sceneOnReady (elems : List Elem) (eid : Nat) : Except ElemErr (List Elem) := do
  let elems ← defineOn elems eid "width" (.lit (.num 0)) [] false false none
  defineOn elems eid "height" (.lit (.num 0)) [] false false none

/-- Dispatch of `element.on_ready()` by concrete type name (the base case of
`SceneBuilder._apply_template`).  Types with no hook shown fall back to the
base `Element.on_ready`, modelled from the spec as defining nothing. -/
def runOnReady (elems : List Elem) (eid : Nat) : String → Except ElemErr (List Elem)
  | "Drawable" => drawableOnReady elems eid
  | "Rectangle" => rectangleOnReady elems eid
  | "Circle" => circleOnReady elems eid
  | "Ellipse" => ellipseOnReady elems eid
  | "Arc" => arcOnReady elems eid
  | "Line" => lineOnReady elems eid
  | "Image" => imageOnReady elems eid
  | "Text" => textOnReady elems eid
  | "Scene" => sceneOnReady elems eid
  | _ => .ok elems

/-- The ancestor chain of an element: the element itself, its parent, and so
on (fuelled; under `parentsWF` a fuel of `elems.length` reaches the
root). -/
def ancestorChain (elems : List Elem) : Nat → Option Nat → List Nat
  | _, none => []
  | 0, some _ => []
  | fuel + 1, some eid =>
    match getElemOpt elems eid with
    | none => []
    | some e => eid :: ancestorChain elems fuel e.parent

/-- The walking loop of `SceneBuilder._get_property` (`scenebuilder.py`
lines 82-90): try `element.get(name)` on the element, then on its parent,
and so on while an element remains. -/
def getPropertyAux (elems : List Elem) (name : String) :
    Nat → Option Nat → Option (Nat × PropEntry)
  | _, none => none
  | 0, some _ => none
  | fuel + 1, some eid =>
    match getElemOpt elems eid with
    | none => none
    | some e =>
      match elemGet e name with
      | some p => some (eid, p)
      | none => getPropertyAux elems name fuel e.parent

/-- Arena well-formedness: every parent reference points to an
earlier-constructed element (elements are created before their
children). -/
def parentsWF (elems : List Elem) : Bool :=
  (List.range elems.length).all fun i =>
    match getElemOpt elems i with
    | some e =>
      match e.parent with
      | some p => decide (p < i)
      | none => true
    | none => true

/-- Builder-level failures: `SceneBuilderError` with message and optional
"after" elaboration (source spans are omitted, matching the `token=None`
path of `SceneBuilder._create_error`), the bare `NotImplementedError` of
named creates, uncaught Python exceptions, errors propagating from
evaluation or the element table, and fuel exhaustion (a modelling artifact
standing for unbounded recursion). -/
inductive BuildErr where
  | sceneErr (message : String) (after : Option String)
  | notImplemented
  | pyError (what : String)
  | evalFail (e : EvalErr)
  | elemFail (e : ElemErr)
  | fuelOut

/-- `SceneBuilder._get_property` (`scenebuilder.py` lines 82-90): ancestor
walk from the given element, failing with the "Undefined property" builder
error when the chain is exhausted. -/
def getProperty (elems : List Elem) (eid : Nat) (name : String) :
    Except BuildErr (Nat × PropEntry) :=
  match getPropertyAux elems name elems.length (some eid) with
  | some r => .ok r
  | none => .error (.sceneErr ("Undefined property " ++ pyrepr name) none)

/-- Syntax-tree nodes consumed by the builder (spec §6): `parser.py` is not
under `src/`; the node shapes are modelled from the spec's interface list
and the attribute accesses of `scenebuilder.py`.  `scene` stands for the
parser's `Scene` root node, a `Create` of the distinguished Scene type. -/
inductive SNode where
  | scene (children : List SNode)
  | includeNode (path : List String)
  | templateNode (name : String) (inherit : Option String) (children : List SNode)
  | create (element : String) (name : String) (children : List SNode)
  | defineNode (name : String) (value : SNode)
  | assignNode (name : String) (value : SNode)
  | memberAccess (value : SNode) (member : String)
  | unaryNode (op : String) (operand : SNode)
  | binNode (op : String) (lhs rhs : SNode)
  | numberNode (value : ℚ) (unit : Option String)
  | stringNode (s : String)
  | callNode (fname : String) (args : List SNode)
  | nameNode (n : String)

/-- Python `isinstance(child, (Include, Template))` of
`SceneBuilder._build_Scene`. -/
def isIncludeOrTemplate : SNode → Bool
  | .includeNode _ => true
  | .templateNode _ _ _ => true
  | _ => false

/-- An entry of the builder's template registry (`SceneBuilder.templates`):
either a user-declared `Template` node or a concrete element type. -/
inductive TemplEntry where
  | user (inherit : Option String) (children : List SNode)
  | concrete (typeName : String)

/-- The initial template registry, seeded from the registered concrete
element types (`Element.list_element_types()` in `SceneBuilder.build`;
`elements/element.py` is not under `src/`, the type list is read off the
class declarations of `drawables.py` plus the Scene and Animation types the
builder relies on). -/
def builtinTemplates : List (String × TemplEntry) :=
  ["Scene", "Drawable", "Rectangle", "Circle", "Ellipse", "Arc", "Line",
   "Image", "Text", "Animation"].map fun t => (t, .concrete t)

/-- Registry lookup (`self.templates[name]`). -/
def lookupTemplate (ts : List (String × TemplEntry)) (name : String) :
    Option TemplEntry :=
  (ts.find? fun p => p.1 == name).map (·.2)

/-- `SceneBuilder._get_element_type` (`scenebuilder.py` lines 59-64)
together with `_get_template`: resolve a name to the concrete element type,
recursing through `inherit` (defaulting to "Drawable"). -/
def getElementType (ts : List (String × TemplEntry)) :
    Nat → String → Except BuildErr String
  | 0, _ => .error .fuelOut
  | fuel + 1, name =>
    match lookupTemplate ts name with
    | none =>
      .error (.sceneErr ("Creating undefined " ++ pyrepr name ++ " template") none)
    | some (.user inh _) => getElementType ts fuel (inh.getD "Drawable")
    | some (.concrete t) => .ok t

/-- One step in the order in which a template chain touches an element:
either the concrete type's `on_ready` hook runs, or one of a template's own
directives is processed against the element. -/
inductive TEvent where
  | ready (typeName : String)
  | directive (node : SNode)

/-- The recursion of `SceneBuilder._apply_template` (`scenebuilder.py` lines
66-80) instrumented to record its order of operations: a user template
first applies its `inherit` target (defaulting to "Drawable"), then
processes its own directives in declared order; a concrete type invokes the
element's `on_ready` hook. -/
def applyTemplateOrder (ts : List (String × TemplEntry)) :
    Nat → String → Except BuildErr (List TEvent)
  | 0, _ => .error .fuelOut
  | fuel + 1, name =>
    match lookupTemplate ts name with
    | none =>
      .error (.sceneErr ("Creating undefined " ++ pyrepr name ++ " template") none)
    | some (.user inh cs) => do
      let base ← applyTemplateOrder ts fuel (inh.getD "Drawable")
      .ok (base ++ cs.map .directive)
    | some (.concrete t) => .ok [.ready t]

/-- The chain of user templates from the named template down to (excluding)
the concrete type, listed base-first as their directive blocks. -/
def templateChain (ts : List (String × TemplEntry)) :
    Nat → String → List (List SNode)
  | 0, _ => []
  | fuel + 1, name =>
    match lookupTemplate ts name with
    | some (.user inh cs) => templateChain ts fuel (inh.getD "Drawable") ++ [cs]
    | _ => []

/-- Path join (`os.path.join` of two components, over "/"-joined model
paths). -/
def pjoin (d f : String) : String := d ++ "/" ++ f

/-- `os.path.dirname` over "/"-joined model paths. -/
def dirnameOf (f : String) : String :=
  String.intercalate "/" ((f.splitOn "/").dropLast)

/-- The relative filename `join(*path) + _ext` that `_find_scene_file`
builds from the dotted module path, with `_ext = ".anim"`. -/
def relFileOf (path : List String) : String :=
  String.intercalate "/" path ++ ".anim"

/-- File-not-found report of `_find_scene_file` (`scenebuilder.py` lines
109-119).  Python transports it as the single string
`message ++ "\n" ++ after` inside a `FileNotFoundError`, which
`_build_Include` re-splits at the first newline; it is modelled structurally
as the two halves. -/
structure FileNotFound where
  message : String
  after : String

/-- The search loop of `_find_scene_file`: `for dirpath in
reversed(self.search_paths)`, returning the first existing file. -/
def findSceneFileLoop (isfile : String → Bool) (rel : String) :
    List String → Option String
  | [] => none
  | d :: rest =>
    if isfile (pjoin d rel) then some (pjoin d rel)
    else findSceneFileLoop isfile rel rest

/-- `SceneBuilder._find_scene_file` (`scenebuilder.py` lines 109-119): try
the search directories latest-appended first; when none holds the file,
report "Failed including <dotted>" elaborated with every tried path. -/
def findSceneFile (isfile : String → Bool) (searchPaths : List String)
    (path : List String) : Except FileNotFound String :=
  let rel := relFileOf path
  match findSceneFileLoop isfile rel searchPaths.reverse with
  | some f => .ok f
  | none =>
    .error
      { message := "Failed including " ++ String.intercalate "." path
        after := "Tried...\n" ++ String.intercalate "\n"
          (searchPaths.reverse.map fun d => "- " ++ pjoin d rel) }

/-- `_scenes_dir` (`scenebuilder.py` line 15), modelled as an opaque
absolute path string. -/
def scenesDir : String := "/textmation/scenes"

/-- Modelled from the spec (§7 Redefinition): the message text of
`ElementPropertyDefinedError` (`elements/element.py` is not under
`src/`). -/
def propertyDefinedMsg (name : String) : String :=
  "Property " ++ pyrepr name ++ " already defined"

/-- Modelled from the spec (§7 Mutation-violation): the message text of
`ElementPropertyConstantError` (`elements/element.py` is not under
`src/`). -/
def propertyConstantMsg (name : String) : String :=
  "Cannot assign to constant property " ++ pyrepr name

/-- Modelled from the spec (§7 Circular-reference): the message text of
`CircularReferenceError` (`elements/element.py` is not under `src/`). -/
def circularReferenceMsg : String := "Circular reference detected"

/-- Modelled from the spec: the unit-suffix list `_units` of `parser.py`
(not under `src/`), as interpolated into the unexpected-unit message. -/
def unitsRepr : String := "('%', 'deg', 'rad', 's', 'ms')"

/-- The cycle-path rendering of `_build_Assign` (`scenebuilder.py` lines
282-284): each path joins its properties' names (`attrgetter("name")`) with
" -> ", and the paths join with newlines. -/
def renderPaths (paths : List (List (Nat × String))) : String :=
  String.intercalate "\n" (paths.map fun p =>
    String.intercalate " -> " (p.map (·.2)))

mutual

/-- Expression size, used only to pick a sufficient evaluation fuel. -/
def exprSize : Expr → Nat
  | .lit _ => 1
  | .unaryOp _ e => exprSize e + 1
  | .binOp _ l r => exprSize l + exprSize r + 1
  | .call _ args => exprSizeList args + 1
  | .propRef _ _ => 1

/-- Total size of an argument list. -/
def exprSizeList : List Expr → Nat
  | [] => 0
  | e :: es => exprSize e + exprSizeList es

end

/-- Fuel bound for an on-demand evaluation (modelling artifact: the Python
code recurses natively; a run that would exhaust this bound re-enters some
(element, property) pair and is caught by cycle detection first). -/
def evalFuel (elems : List Elem) (e : Expr) : Nat :=
  ((elems.map fun el => (el.props.map fun p => exprSize p.value).sum).sum
      + exprSize e + 1) * (totalPairs elems + 2)

/-- Result of building one syntax node: statement nodes yield Python `None`,
expression nodes an expression value, `create` the new element. -/
inductive BRes where
  | noneRes
  | val (e : Expr)
  | elemRes (eid : Nat)

/-- The builder's mutable state during one build (`SceneBuilder.__init__`
and `build`): the element arena under construction, the active-element and
active-type stacks, the template registry, the include search paths, the
in-progress (`_including`) and completed (`_included`) include sets, and —
as observable instrumentation for the include-once contract — the log of
files actually read. -/
structure BuildState where
  elems : List Elem
  elemStack : List Nat
  typeStack : List String
  templates : List (String × TemplEntry)
  searchPaths : List String
  including : List String
  included : List String
  reads : List String

/-- `Element.add` attachment effect (modelled from the spec:
`elements/element.py` is not under `src/`): append the child to the
parent's ordered children and set the child's parent back-reference. -/
def attachChild (elems : List Elem) (pid eid : Nat) : List Elem :=
  updateAt (updateAt elems pid fun e => { e with children := e.children ++ [eid] })
    eid fun e => { e with parent := some pid }

mutual

/-- `SceneBuilder._build` and its per-node visitors (`scenebuilder.py` lines
166-342), as one fuelled dispatcher over the node kind. -/
def buildNode (funcs : FuncTable) (fs : String → Option SNode) :
    Nat → BuildState → SNode → Except BuildErr (BuildState × BRes)
  | 0, _, _ => .error .fuelOut
  | fuel + 1, st, node =>
    match node with
    | .scene cs =>
      -- _build_Scene (lines 185-192)
      if st.including.isEmpty then
        buildCreateCore funcs fs fuel st "Scene" "" cs
      else do
        let st' ← buildIncludedChildren funcs fs fuel st cs
        .ok (st', .noneRes)
    | .includeNode path =>
      -- _build_Include (lines 176-183)
      match findSceneFile (fun f => (fs f).isSome) st.searchPaths path with
      | .error fnf => .error (.sceneErr fnf.message (some fnf.after))
      | .ok filename => do
        let st' ← includeFile funcs fs fuel st filename
        .ok (st', .noneRes)
    | .templateNode name inh cs =>
      -- _build_Template (lines 226-232)
      if (lookupTemplate st.templates name).isSome then
        .error (.sceneErr ("Redeclaration of " ++ pyrepr name) none)
      else
        .ok ({ st with templates := st.templates ++ [(name, .user inh cs)] },
          .noneRes)
    | .create el nm cs => buildCreateCore funcs fs fuel st el nm cs
    | .defineNode name vnode => do
      -- _build_Define (lines 234-251)
      let (st1, r) ← buildNode funcs fs fuel st vnode
      match r with
      | .val v =>
        match st1.elemStack.getLast? with
        | none => .error (.pyError "IndexError")
        | some eid =>
          match st1.elems[eid]? with
          | none => .error (.pyError "IndexError")
          | some e =>
            match defineOn st1.elems eid name v [] false false none with
            | .ok elems' => .ok ({ st1 with elems := elems' }, .noneRes)
            | .error (.defined n) =>
              .error (.sceneErr (propertyDefinedMsg n ++ " in " ++ e.type) none)
            | .error err => .error (.elemFail err)
      | _ => .error (.pyError "AssertionError")
    | .assignNode name vnode =>
      -- _build_Assign (lines 253-286)
      match st.elemStack.getLast? with
      | none => .error (.pyError "IndexError")
      | some eid0 =>
        match st.elems[eid0]? with
        | none => .error (.pyError "IndexError")
        | some e0 =>
          match elemGet e0 name with
          | none =>
            .error (.sceneErr ("Assigning value to undefined property "
              ++ pyrepr name ++ " in " ++ e0.type) none)
          | some entry0 =>
            match entry0.types with
            | [] => .error (.pyError "IndexError")
            | ty :: _ => do
              let (st1, r) ← buildNode funcs fs fuel
                { st with typeStack := st.typeStack ++ [ty] } vnode
              let st2 := { st1 with typeStack := st1.typeStack.dropLast }
              match r with
              | .val v =>
                match st2.elemStack.getLast? with
                | none => .error (.pyError "IndexError")
                | some eid =>
                  match st2.elems[eid]? with
                  | none => .error (.pyError "IndexError")
                  | some e =>
                    match setProp st2.elems eid name v with
                    | .ok elems' => .ok ({ st2 with elems := elems' }, .noneRes)
                    | .error (.readonlyErr _) =>
                      .error (.sceneErr ("Cannot assign to readonly property "
                        ++ pyrepr name ++ " in " ++ e.type) none)
                    | .error (.constantErr n) =>
                      .error (.sceneErr (propertyConstantMsg n ++ " in " ++ e.type)
                        none)
                    | .error (.circular paths) =>
                      .error (.sceneErr (circularReferenceMsg ++ " in " ++ e.type)
                        (some ("Paths:\n" ++ renderPaths paths)))
                    | .error err => .error (.elemFail err)
              | _ => .error (.pyError "AssertionError")
    | .memberAccess vnode member => do
      -- _build_MemberAccess (lines 288-297)
      let (st1, r) ← buildNode funcs fs fuel st vnode
      match r with
      | .val ve =>
        match evalExpr funcs st1.elems (evalFuel st1.elems ve) [] ve with
        | .error err => .error (.evalFail err)
        | .ok (.elemRef eid) =>
          match getProperty st1.elems eid member with
          | .ok (owner, _) => .ok (st1, .val (.propRef owner member))
          | .error err => .error err
        | .ok _ => .error (.pyError "AssertionError")
      | _ => .error (.pyError "AssertionError")
    | .unaryNode op onode => do
      -- _build_UnaryOp (lines 299-302)
      let (st1, r) ← buildNode funcs fs fuel st onode
      match r with
      | .val v => .ok (st1, .val (.unaryOp op v))
      | _ => .error (.pyError "AssertionError")
    | .binNode op lnode rnode => do
      -- _build_BinOp (lines 304-307)
      let (st1, rl) ← buildNode funcs fs fuel st lnode
      let (st2, rr) ← buildNode funcs fs fuel st1 rnode
      match rl, rr with
      | .val l, .val r => .ok (st2, .val (.binOp op l r))
      | _, _ => .error (.pyError "AssertionError")
    | .numberNode v unit =>
      -- _build_Number (lines 309-325)
      (match unit with
      | none => .ok (st, .val (.lit (.num v)))
      | some u =>
        if u == "%" then .ok (st, .val (.lit (.pct v)))
        else if u == "deg" then .ok (st, .val (.lit (.angle v .degrees)))
        else if u == "rad" then .ok (st, .val (.lit (.angle v .radians)))
        else if u == "s" then .ok (st, .val (.lit (.time v .seconds)))
        else if u == "ms" then .ok (st, .val (.lit (.time v .milliseconds)))
        else
          .error (.sceneErr ("Unexpected unit " ++ pyrepr u
            ++ ", expected any of " ++ unitsRepr) none))
    | .stringNode s =>
      -- _build_String (lines 327-329)
      .ok (st, .val (.lit (.str s)))
    | .callNode fname args => do
      -- _build_Call (lines 331-333): arguments are built first, then the
      -- function is looked up (a missing name raises KeyError)
      let (st1, vs) ← buildArgs funcs fs fuel st args
      match funcs fname with
      | some _ => .ok (st1, .val (.call fname vs))
      | none => .error (.pyError ("KeyError " ++ pyrepr fname))
    | .nameNode n =>
      -- _build_Name (lines 335-342)
      let enumHit :=
        match st.typeStack.getLast? with
        | some ty =>
          (match enumMembersOf ty with
           | some members => (members.find? fun m => m.1 == n).map (·.2)
           | none => none)
        | none => none
      match enumHit with
      | some v => .ok (st, .val (.lit v))
      | none =>
        match st.elemStack.getLast? with
        | none => .error (.pyError "IndexError")
        | some eid =>
          match getProperty st.elems eid n with
          | .ok (owner, _) => .ok (st, .val (.propRef owner n))
          | .error err => .error err

/-- `SceneBuilder._build_children` as consumed with results discarded (the
`for child in ...: pass` loops of `_build_Create` and
`_apply_template`). -/
def buildSeq (funcs : FuncTable) (fs : String → Option SNode) :
    Nat → BuildState → List SNode → Except BuildErr BuildState
  | 0, _, _ => .error .fuelOut
  | _ + 1, st, [] => .ok st
  | fuel + 1, st, c :: cs => do
    let (st1, _) ← buildNode funcs fs fuel st c
    buildSeq funcs fs fuel st1 cs

/-- The argument loop of `_build_Call`: build each argument expression
left-to-right. -/
def buildArgs (funcs : FuncTable) (fs : String → Option SNode) :
    Nat → BuildState → List SNode → Except BuildErr (BuildState × List Expr)
  | 0, _, _ => .error .fuelOut
  | _ + 1, st, [] => .ok (st, [])
  | fuel + 1, st, a :: rest => do
    let (st1, r) ← buildNode funcs fs fuel st a
    match r with
    | .val v => do
      let (st2, vs) ← buildArgs funcs fs fuel st1 rest
      .ok (st2, v :: vs)
    | _ => .error (.pyError "AssertionError")

/-- The include-mode loop of `_build_Scene` (`scenebuilder.py` lines
189-192): only `Include` and `Template` children are built. -/
def buildIncludedChildren (funcs : FuncTable) (fs : String → Option SNode) :
    Nat → BuildState → List SNode → Except BuildErr BuildState
  | 0, _, _ => .error .fuelOut
  | _ + 1, st, [] => .ok st
  | fuel + 1, st, c :: cs =>
    if isIncludeOrTemplate c then do
      let (st1, _) ← buildNode funcs fs fuel st c
      buildIncludedChildren funcs fs fuel st1 cs
    else
      buildIncludedChildren funcs fs fuel st cs

/-- `SceneBuilder._apply_template` (`scenebuilder.py` lines 66-80): look the
name up; a user template pushes the element, applies its `inherit` target
(defaulting to "Drawable") and then builds its own directives; a concrete
type runs the element's `on_ready` hook. -/
def applyTemplate (funcs : FuncTable) (fs : String → Option SNode) :
    Nat → BuildState → Nat → String → Except BuildErr BuildState
  | 0, _, _, _ => .error .fuelOut
  | fuel + 1, st, eid, tname =>
    match lookupTemplate st.templates tname with
    | none =>
      .error (.sceneErr ("Creating undefined " ++ pyrepr tname ++ " template") none)
    | some (.user inh cs) => do
      let st1 := { st with elemStack := st.elemStack ++ [eid] }
      let st2 ← applyTemplate funcs fs fuel st1 eid (inh.getD "Drawable")
      let st3 ← buildSeq funcs fs fuel st2 cs
      .ok { st3 with elemStack := st3.elemStack.dropLast }
    | some (.concrete t) =>
      match runOnReady st.elems eid t with
      | .ok elems' => .ok { st with elems := elems' }
      | .error err => .error (.elemFail err)

/-- `SceneBuilder._include` (`scenebuilder.py` lines 124-144): a file
already being included or already included is a silent no-op; otherwise
push the file's directory onto the search paths, mark it in progress, read
and build it, then mark it completed.  `abspath` is modelled as the
identity on the already-absolute paths `_find_scene_file` produces. -/
def includeFile (funcs : FuncTable) (fs : String → Option SNode) :
    Nat → BuildState → String → Except BuildErr BuildState
  | 0, _, _ => .error .fuelOut
  | fuel + 1, st, filename =>
    if st.including.contains filename || st.included.contains filename then
      .ok st
    else
      match fs filename with
      | none => .error (.pyError "FileNotFoundError")
      | some tree => do
        let st1 := { st with
          searchPaths := st.searchPaths ++ [dirnameOf filename]
          including := st.including ++ [filename]
          reads := st.reads ++ [filename] }
        let (st2, _) ← buildNode funcs fs fuel st1 tree
        .ok { st2 with
          including := st2.including.dropLast
          included := st2.included ++ [filename]
          searchPaths := st2.searchPaths.dropLast }

/-- `SceneBuilder._build_Create` (`scenebuilder.py` lines 194-224): a named
create raises `NotImplementedError`; otherwise resolve the concrete type,
construct the element (`on_init` modelled from the spec as allocating empty
state), attach it to the active parent under the parent's containment rule,
apply the template chain, build the node's own children with the element
pushed, and run `on_created` (modelled from the spec as a validation hook
with nothing modelled to validate). -/
def buildCreateCore (funcs : FuncTable) (fs : String → Option SNode) :
    Nat → BuildState → String → String → List SNode →
    Except BuildErr (BuildState × BRes)
  | 0, _, _, _, _ => .error .fuelOut
  | fuel + 1, st, elName, cname, cs =>
    if cname ≠ "" then .error .notImplemented
    else do
      let ety ← getElementType st.templates (st.templates.length + 1) elName
      let eid := st.elems.length
      let newElem : Elem :=
        { type := ety, parent := none, children := [], props := [] }
      let stA := { st with elems := st.elems ++ [newElem] }
      let stB ←
        match stA.elemStack.getLast? with
        | none => Except.ok stA
        | some pid =>
          match stA.elems[pid]? with
          | none => .error (.pyError "IndexError")
          | some pe =>
            if addAccepts pe.type ety then
              .ok { stA with elems := attachChild stA.elems pid eid }
            else
              .error (.sceneErr ("Cannot add " ++ ety ++ " to " ++ pe.type) none)
      let stC ← applyTemplate funcs fs fuel stB eid elName
      let stD := { stC with elemStack := stC.elemStack ++ [eid] }
      let stE ← buildSeq funcs fs fuel stD cs
      .ok ({ stE with elemStack := stE.elemStack.dropLast }, .elemRes eid)

end

/-- The initial builder state of `SceneBuilder.build` (`scenebuilder.py`
lines 146-164 with `__init__`): registry seeded from the concrete element
types, empty stacks, the scenes directory on the search path. -/
def initState : BuildState :=
  { elems := [], elemStack := [], typeStack := [], templates := builtinTemplates
    searchPaths := [scenesDir], including := [], included := [], reads := [] }

/-- `SceneBuilder.build` (`scenebuilder.py` lines 146-164): the root node
must be a `Scene` create. -/
def buildScene (funcs : FuncTable) (fs : String → Option SNode) (fuel : Nat)
    (root : SNode) : Except BuildErr (BuildState × BRes) :=
  match root with
  | .scene cs => buildNode funcs fs fuel initState (.scene cs)
  | _ => .error (.pyError "AssertionError")

/-! Concrete fixtures used by the witnesses. -/

/-- An empty function registry. -/
def noFuncs : FuncTable := fun _ => none

/-- An empty filesystem. -/
def noFs : String → Option SNode := fun _ => none

/-- A property entry fixture. -/
def fxProp (n : String) (v : Expr) (ro : Bool := false) : PropEntry :=
  { name := n, value := v, types := ["Number"], readonly := ro
    constant := false, relative := none }

/-- A two-element fixture arena: a parentless Rectangle (properties `p` and
readonly `r`) with one Circle child holding `q`, a reference to the
Rectangle's `p`. -/
def fxElems : List Elem :=
  [{ type := "Rectangle", parent := none, children := [1]
     props := [fxProp "p" (.lit (.num 1)), fxProp "r" (.lit (.num 7)) true] },
   { type := "Circle", parent := some 0, children := []
     props := [fxProp "q" (.propRef 0 "p")] }]

/-- A builder-state fixture over `fxElems` with the Rectangle active. -/
def fxState : BuildState :=
  { elems := fxElems, elemStack := [0], typeStack := []
    templates := builtinTemplates, searchPaths := [scenesDir]
    including := [], included := [], reads := [] }

/-- The fixture state with the Circle active instead. -/
def fxStateC : BuildState := { fxState with elemStack := [1] }

/-- A user-template registry fixture: `A` (no inherit) and `B` inheriting
`A`. -/
def fxTemplates : List (String × TemplEntry) :=
  builtinTemplates ++
    [("A", .user none [.defineNode "a" (.numberNode 1 none)]),
     ("B", .user (some "A") [.assignNode "a" (.numberNode 2 none)])]

/-- The C8 fixture: a Scene of concrete width 300 (and height 200) with one
freshly constructed Circle child, as `_build_Create` leaves it right before
template application runs the `on_ready` hook. -/
def c8Elems : List Elem :=
  [{ type := "Scene", parent := none, children := [1]
     props := [fxProp "width" (.lit (.num 300)), fxProp "height" (.lit (.num 200))] },
   { type := "Circle", parent := some 0, children := [], props := [] }]

/-- The arena after `Circle.on_ready` (the hook succeeds; the theorem's
first conjunct states exactly that). -/
def c8Ready : List Elem :=
  match circleOnReady c8Elems 1 with
  | .ok els => els
  | .error _ => []

/-- The builder state over `c8Ready` with the Circle active. -/
def c8State : BuildState :=
  { elems := c8Ready, elemStack := [1], typeStack := []
    templates := builtinTemplates, searchPaths := [scenesDir]
    including := [], included := [], reads := [] }

/-- The arena after `diameter: 50%` is assigned on the Circle. -/
def c8After : List Elem :=
  match setProp c8Ready 1 "diameter" (.lit (.pct 50)) with
  | .ok els => els
  | .error _ => []

/-! The claims. -/

/-- Unfolding of `Except` bind on a success, used throughout the proofs. -/
@[simp] theorem exceptBind_ok {ε α β : Type} (a : α) (f : α → Except ε β) :
    (Except.ok a >>= f : Except ε β) = f a := rfl

/-- Unfolding of `Except` bind on an error. -/
@[simp] theorem exceptBind_error {ε α β : Type} (e : ε) (f : α → Except ε β) :
    ((Except.error e : Except ε α) >>= f) = .error e := rfl

/-- C9: for every syntax-tree `Create` node that carries a non-empty name,
building it raises `NotImplementedError` (`scenebuilder.py` lines 194-196).
The check is the first statement of `_build_Create`, before the element is
constructed or attached; accordingly the error is produced for every
builder state, which the error result leaves untouched. -/
theorem create_with_name_not_implemented (funcs : FuncTable)
    (fs : String → Option SNode) (fuel : Nat) (st : BuildState)
    (el nm : String) (cs : List SNode) (h : nm ≠ "") :
    buildNode funcs fs (fuel + 2) st (.create el nm cs) =
      .error .notImplemented := by
  simp [buildNode, buildCreateCore, h]

/-- Witness for C9 at a concrete named create. -/
theorem create_with_name_not_implemented_witness :
    ("foo" : String) ≠ "" ∧
      buildNode noFuncs noFs 2 fxState (.create "Rectangle" "foo" []) =
        .error .notImplemented :=
  ⟨by decide,
   create_with_name_not_implemented noFuncs noFs 0 fxState "Rectangle" "foo" []
     (by decide)⟩

/-- C4: including a file whose absolute path is already in the in-progress
include stack or in the completed-include set is a silent no-op
(`scenebuilder.py` lines 124-130): the builder state is returned unchanged —
in particular the read log, the template registry and the element arena are
exactly those of the input state, so nothing is read or registered a second
time — and no error is raised. -/
theorem include_seen_file_is_noop (funcs : FuncTable)
    (fs : String → Option SNode) (fuel : Nat) (st : BuildState) (fn : String)
    (h : (st.including.contains fn || st.included.contains fn) = true) :
    includeFile funcs fs (fuel + 1) st fn = .ok st := by
  rw [includeFile]
  exact if_pos h

/-- Witness for C4: re-including a file that is mid-include. -/
theorem include_seen_file_is_noop_witness :
    ((({ fxState with including := ["/a/f.anim"] } : BuildState).including.contains
        "/a/f.anim" ||
      ({ fxState with including := ["/a/f.anim"] } : BuildState).included.contains
        "/a/f.anim") = true) ∧
      includeFile noFuncs noFs 5 { fxState with including := ["/a/f.anim"] }
          "/a/f.anim" =
        .ok { fxState with including := ["/a/f.anim"] } :=
  ⟨by decide,
   include_seen_file_is_noop noFuncs noFs 4
     { fxState with including := ["/a/f.anim"] } "/a/f.anim" (by decide)⟩

/-- C2: template application is base-first.  Whenever
`SceneBuilder._apply_template` succeeds on a name, its order of operations
is: first the single `on_ready` invocation of the concrete type that
`_get_element_type` resolves the name to (the bottom of the recursion,
reached through each template's `inherit` target, which defaults to
"Drawable"), followed by the directive blocks of the template chain
base-first, each block in its declared order. -/
theorem apply_template_base_first (ts : List (String × TemplEntry))
    (fuel : Nat) (name : String) (trace : List TEvent)
    (h : applyTemplateOrder ts fuel name = .ok trace) :
    ∃ t, getElementType ts fuel name = .ok t ∧
      trace = .ready t ::
        ((templateChain ts fuel name).flatten.map TEvent.directive) := by
  induction fuel generalizing name trace with
  | zero => simp [applyTemplateOrder] at h
  | succ fuel ih =>
    match hl : lookupTemplate ts name with
    | none => simp [applyTemplateOrder, hl] at h
    | some (.concrete t) =>
      simp [applyTemplateOrder, hl] at h
      exact ⟨t, by simp [getElementType, hl], by simp [templateChain, hl, ← h]⟩
    | some (.user inh cs) =>
      simp only [applyTemplateOrder, hl] at h
      obtain ⟨base, hb, htr⟩ :
          ∃ base, applyTemplateOrder ts fuel (inh.getD "Drawable") = .ok base ∧
            trace = base ++ cs.map TEvent.directive := by
        cases hx : applyTemplateOrder ts fuel (inh.getD "Drawable") with
        | error e => rw [hx] at h; cases h
        | ok base => rw [hx] at h; cases h; exact ⟨base, rfl, rfl⟩
      obtain ⟨t, h1, h2⟩ := ih (inh.getD "Drawable") base hb
      refine ⟨t, by simp [getElementType, hl, h1], ?_⟩
      subst h2
      simp [templateChain, hl, htr]

/-- Witness for C2: template `B` inherits `A`; the trace is the Drawable
`on_ready` followed by A's directive and then B's. -/
theorem apply_template_base_first_witness :
    applyTemplateOrder fxTemplates 3 "B" =
      .ok [.ready "Drawable",
           .directive (.defineNode "a" (.numberNode 1 none)),
           .directive (.assignNode "a" (.numberNode 2 none))] ∧
    ∃ t, getElementType fxTemplates 3 "B" = .ok t ∧
      ([TEvent.ready "Drawable",
        .directive (.defineNode "a" (.numberNode 1 none)),
        .directive (.assignNode "a" (.numberNode 2 none))] : List TEvent) =
        .ready t ::
          ((templateChain fxTemplates 3 "B").flatten.map TEvent.directive) :=
  ⟨rfl, apply_template_base_first fxTemplates 3 "B" _ rfl⟩

/-- The search loop of `_find_scene_file` returns the join of the first
directory of the list that holds the file. -/
theorem findSceneFileLoop_eq_find (isfile : String → Bool) (rel : String) :
    ∀ dirs : List String,
      findSceneFileLoop isfile rel dirs =
        (dirs.find? fun d => isfile (pjoin d rel)).map fun d => pjoin d rel
  | [] => rfl
  | d :: rest => by
    by_cases hd : isfile (pjoin d rel)
    · simp [findSceneFileLoop, hd]
    · simp [findSceneFileLoop, hd, findSceneFileLoop_eq_find isfile rel rest]

/-- C6: include resolution tries the search directories in reverse append
order — the most recently appended (the latest included file's) directory
first — and returns the first directory holding the file; when none does,
`_build_Include` fails with the "Failed including" builder error whose
`after` elaboration lists every searched path, in search order
(`scenebuilder.py` lines 109-119 and 176-183). -/
theorem include_resolution (isfile : String → Bool) (sp path : List String)
    (funcs : FuncTable) (fs : String → Option SNode) (fuel : Nat)
    (st : BuildState)
    (hsp : st.searchPaths = sp)
    (hisf : isfile = fun f => (fs f).isSome) :
    (findSceneFile isfile sp path =
      match sp.reverse.find? (fun d => isfile (pjoin d (relFileOf path))) with
      | some d => .ok (pjoin d (relFileOf path))
      | none => .error
          { message := "Failed including " ++ String.intercalate "." path
            after := "Tried...\n" ++ String.intercalate "\n"
              (sp.reverse.map fun d => "- " ++ pjoin d (relFileOf path)) }) ∧
    (sp.reverse.find? (fun d => isfile (pjoin d (relFileOf path))) = none →
      buildNode funcs fs (fuel + 1) st (.includeNode path) =
        .error (.sceneErr ("Failed including " ++ String.intercalate "." path)
          (some ("Tried...\n" ++ String.intercalate "\n"
            (sp.reverse.map fun d => "- " ++ pjoin d (relFileOf path)))))) := by
  have hchar : findSceneFile isfile sp path =
      match sp.reverse.find? (fun d => isfile (pjoin d (relFileOf path))) with
      | some d => .ok (pjoin d (relFileOf path))
      | none => .error
          { message := "Failed including " ++ String.intercalate "." path
            after := "Tried...\n" ++ String.intercalate "\n"
              (sp.reverse.map fun d => "- " ++ pjoin d (relFileOf path)) } := by
    rw [findSceneFile, findSceneFileLoop_eq_find]
    cases sp.reverse.find? fun d => isfile (pjoin d (relFileOf path)) <;> simp
  refine ⟨hchar, fun hnone => ?_⟩
  have h1 : findSceneFile (fun f => (fs f).isSome) st.searchPaths path =
      .error
        { message := "Failed including " ++ String.intercalate "." path
          after := "Tried...\n" ++ String.intercalate "\n"
            (sp.reverse.map fun d => "- " ++ pjoin d (relFileOf path)) } := by
    rw [hsp, ← hisf, hchar, hnone]
  simp [buildNode, h1]

/-- Witness for C6 on an empty filesystem with the default search path. -/
theorem include_resolution_witness :
    buildNode noFuncs noFs 3 fxState (.includeNode ["lib", "shapes"]) =
      .error (.sceneErr "Failed including lib.shapes"
        (some "Tried...\n- /textmation/scenes/lib/shapes.anim")) :=
  (include_resolution (fun f => (noFs f).isSome) [scenesDir] ["lib", "shapes"]
    noFuncs noFs 2 fxState rfl rfl).2 rfl

/-- C7: a `create` whose new element is rejected by the active parent's
containment rule fails with a builder error naming the child's and the
parent's type (`scenebuilder.py` lines 203-211, `drawables.py` lines 17-25:
a `BaseDrawable` parent accepts only `Drawable` and `Animation`
children). -/
theorem create_rejected_names_both_types (funcs : FuncTable)
    (fs : String → Option SNode) (fuel : Nat) (st : BuildState)
    (el ety : String) (cs : List SNode) (pid : Nat) (pe : Elem)
    (hty : getElementType st.templates (st.templates.length + 1) el = .ok ety)
    (hstk : st.elemStack.getLast? = some pid)
    (hpe : st.elems[pid]? = some pe)
    (hrej : addAccepts pe.type ety = false) :
    buildNode funcs fs (fuel + 2) st (.create el "" cs) =
      .error (.sceneErr ("Cannot add " ++ ety ++ " to " ++ pe.type) none) := by
  have hlt : pid < st.elems.length := by
    by_contra hge
    rw [List.getElem?_eq_none (Nat.le_of_not_lt hge)] at hpe
    cases hpe
  have happ : (st.elems ++
      [({ type := ety, parent := none, children := [], props := [] } : Elem)])[pid]? =
      some pe := by
    rw [List.getElem?_append, if_pos hlt]
    exact hpe
  simp [buildNode, buildCreateCore, hty, hstk, happ, hrej]

/-- Bridging lemma: Boolean arena well-formedness in quantified form. -/
theorem parentsWF_spec {elems : List Elem} (h : parentsWF elems = true) :
    ∀ i e p, getElemOpt elems i = some e → e.parent = some p → p < i := by
  intro i e p hi hp
  have hilen : i < elems.length := by
    by_contra hge
    unfold getElemOpt at hi
    rw [List.getElem?_eq_none (Nat.le_of_not_lt hge)] at hi
    cases hi
  have hall := List.all_eq_true.mp h i (List.mem_range.mpr hilen)
  simp only [hi, hp] at hall
  exact of_decide_eq_true hall

/-- The walking loop of `_get_property` returns exactly the first ancestor
on the chain that holds the property. -/
theorem getPropertyAux_eq_chain (elems : List Elem) (name : String) :
    ∀ (fuel : Nat) (start : Option Nat),
      getPropertyAux elems name fuel start =
        (ancestorChain elems fuel start).findSome? fun a =>
          ((getElemOpt elems a).bind (elemGet · name)).map fun pr => (a, pr)
  | fuel, none => by cases fuel <;> rfl
  | 0, some _ => rfl
  | fuel + 1, some eid => by
    cases he : getElemOpt elems eid with
    | none => simp [getPropertyAux, ancestorChain, he]
    | some e =>
      cases hg : elemGet e name with
      | some pr =>
        simp [getPropertyAux, ancestorChain, he, hg, List.findSome?]
      | none =>
        simp [getPropertyAux, ancestorChain, he, hg, List.findSome?,
          getPropertyAux_eq_chain elems name fuel e.parent]

/-- Under a well-formed arena and sufficient fuel, the ancestor chain ends
at a parentless root. -/
theorem ancestorChain_reaches_root (elems : List Elem)
    (hwf : parentsWF elems = true) :
    ∀ (eid fuel : Nat), eid < elems.length → eid + 1 ≤ fuel →
      ∃ root, (ancestorChain elems fuel (some eid)).getLast? = some root ∧
        (getElemOpt elems root).bind (·.parent) = none := by
  intro eid
  induction eid using Nat.strong_induction_on with
  | _ eid ih =>
    intro fuel hlen hfuel
    match fuel, hfuel with
    | fuel + 1, _ =>
      have he : getElemOpt elems eid = some elems[eid] := by
        simp [getElemOpt, List.getElem?_eq_getElem hlen]
      have hstep : ancestorChain elems (fuel + 1) (some eid) =
          eid :: ancestorChain elems fuel elems[eid].parent := by
        simp [ancestorChain, he]
      cases hp : elems[eid].parent with
      | none =>
        have hnil : ancestorChain elems fuel (none : Option Nat) = [] := by
          cases fuel <;> rfl
        refine ⟨eid, ?_, by rw [he]; simpa using hp⟩
        rw [hstep, hp, hnil]
        rfl
      | some p =>
        have hpi : p < eid := parentsWF_spec hwf eid elems[eid] p he hp
        obtain ⟨root, h1, h2⟩ :=
          ih p hpi fuel (Nat.lt_trans hpi hlen) (by omega)
        refine ⟨root, ?_, h2⟩
        rw [hstep, hp]
        cases hc : ancestorChain elems fuel (some p) with
        | nil => rw [hc] at h1; cases h1
        | cons b bs =>
          rw [hc] at h1
          rw [List.getLast?_cons_cons]
          exact h1

/-- C3: resolving a property reference walks the ancestor chain starting at
the given element (`_get_property`, `scenebuilder.py` lines 82-90): the
result is the nearest chain element holding the name, and the "Undefined
property" error occurs exactly when no chain element holds it; under a
well-formed arena the chain walked is the full one, ending at the parentless
root. -/
theorem property_lookup_walks_ancestors (elems : List Elem) (eid : Nat)
    (name : String) :
    (getProperty elems eid name =
      match (ancestorChain elems elems.length (some eid)).findSome? (fun a =>
          ((getElemOpt elems a).bind (elemGet · name)).map fun pr => (a, pr)) with
      | some r => .ok r
      | none => .error (.sceneErr ("Undefined property " ++ pyrepr name) none)) ∧
    (parentsWF elems = true → eid < elems.length →
      ∃ root, (ancestorChain elems elems.length (some eid)).getLast? = some root ∧
        (getElemOpt elems root).bind (·.parent) = none) := by
  constructor
  · simp only [getProperty, getPropertyAux_eq_chain]
  · intro hwf hlen
    exact ancestorChain_reaches_root elems hwf eid elems.length hlen hlen

/-- Witness for C3: the Circle of the fixture resolves `p` on its parent
Rectangle; the fixture arena is well-formed and its chain ends at the
parentless Rectangle. -/
theorem property_lookup_walks_ancestors_witness :
    getProperty fxElems 1 "p" = .ok (0, fxProp "p" (.lit (.num 1))) ∧
    parentsWF fxElems = true ∧
    (∃ root, (ancestorChain fxElems fxElems.length (some 1)).getLast? = some root ∧
      (getElemOpt fxElems root).bind (·.parent) = none) :=
  ⟨rfl, by decide,
   (property_lookup_walks_ancestors fxElems 1 "p").2 (by decide) (by decide)⟩

/-- Arena lookup after an in-place update at one index. -/
theorem getElem?_updateAt (f : Elem → Elem) :
    ∀ (elems : List Elem) (eid j : Nat),
      (updateAt elems eid f)[j]? =
        if j = eid then (elems[j]?).map f else elems[j]?
  | [], eid, j => by cases eid <;> simp [updateAt]
  | e :: rest, 0, 0 => by simp [updateAt]
  | e :: rest, 0, j + 1 => by simp [updateAt]
  | e :: rest, n + 1, 0 => by simp [updateAt]
  | e :: rest, n + 1, j + 1 => by
    simp only [updateAt, List.getElem?_cons_succ]
    rw [getElem?_updateAt f rest n j]
    by_cases h : j = n <;> simp [h]

/-- Replacing one property's stored value finds the entry with its new
value (the name and the other attributes are preserved). -/
theorem find?_name_map_setValue (name : String) (v : Expr)
    (props : List PropEntry) :
    (props.map fun p =>
        if p.name == name then { p with value := v } else p).find?
        (fun p => p.name == name) =
      (props.find? fun p => p.name == name).map
        fun p => { p with value := v } := by
  rw [List.find?_map]
  have hcomp : ((fun p => p.name == name) ∘ fun p =>
      if p.name == name then ({ p with value := v } : PropEntry) else p) =
      fun p => p.name == name := by
    funext q
    by_cases hq : q.name = name <;> simp [hq]
  rw [hcomp]
  cases hf : props.find? fun p => p.name == name with
  | none => rfl
  | some q =>
    have hq' : q.name = name := by
      have hq := List.find?_some hf
      simpa using hq
    simp [hq']

/-- `set` fails with `ElementPropertyReadonlyError` when the `ReadOnly` flag
is on. -/
theorem setProp_readonly (elems : List Elem) (eid : Nat) (name : String)
    (v : Expr) (e : Elem) (entry : PropEntry)
    (he : getElemOpt elems eid = some e) (hg : elemGet e name = some entry)
    (hro : entry.readonly = true) :
    setProp elems eid name v = .error (.readonlyErr name) := by
  simp [setProp, he, hg, hro]

/-- `set` succeeds, storing the new expression, when both flags are off and
no cycle is reachable. -/
theorem setProp_ok (elems : List Elem) (eid : Nat) (name : String)
    (v : Expr) (e : Elem) (entry : PropEntry)
    (he : getElemOpt elems eid = some e) (hg : elemGet e name = some entry)
    (hro : entry.readonly = false) (hco : entry.constant = false)
    (hcy : findCyclesFrom (updatePropValue elems eid name v)
        (totalPairs (updatePropValue elems eid name v) + 2) [] (eid, name) = []) :
    setProp elems eid name v = .ok (updatePropValue elems eid name v) := by
  simp [setProp, he, hg, hro, hco, hcy]

/-- One evaluation step of a property without a relative-dimension tag is
the evaluation of its stored expression with the pair pushed on the
stack. -/
theorem evalProp_step_no_relative (funcs : FuncTable) (elems : List Elem)
    (fuel : Nat) (eid : Nat) (name : String) (e : Elem) (entry : PropEntry)
    (he : getElemOpt elems eid = some e) (hg : elemGet e name = some entry)
    (hrel : entry.relative = none) :
    evalProp funcs elems (fuel + 1) [] eid name =
      evalExpr funcs elems fuel [(eid, name)] entry.value := by
  cases hv : evalExpr funcs elems fuel [(eid, name)] entry.value with
  | error err => simp [evalProp, he, hg, hv]
  | ok val => cases val <;> simp [evalProp, he, hg, hv, hrel]

/-- Dropping up to the first occurrence of a member starts at that
member. -/
theorem head?_dropWhile_ne {α : Type} [DecidableEq α] (a : α) :
    ∀ l : List α, a ∈ l → (l.dropWhile fun q => q ≠ a).head? = some a := by
  intro l
  induction l with
  | nil => intro h; cases h
  | cons b l ih =>
    intro h
    rw [List.dropWhile_cons]
    by_cases hb : b = a
    · subst hb
      simp
    · have ha : a ∈ l := by
        cases List.mem_cons.mp h with
        | inl h' => exact absurd h'.symm hb
        | inr h' => exact h'
      have hd : ((fun q => decide (q ≠ a)) b) = true := by simp [hb]
      rw [if_pos hd]
      exact ih ha

/-- Every path the cycle search reports is nonempty and runs from the first
occurrence of the repeated pair back to the repeat: its first and last
entries coincide. -/
theorem findCyclesFrom_closed (elems : List Elem) :
    ∀ (fuel : Nat) (stack : List (Nat × String)) (pair : Nat × String)
      (p : List (Nat × String)),
      p ∈ findCyclesFrom elems fuel stack pair →
      p ≠ [] ∧ p.head? = p.getLast? := by
  intro fuel
  induction fuel with
  | zero => intro stack pair p hp; cases hp
  | succ fuel ih =>
    intro stack pair p hp
    rw [findCyclesFrom] at hp
    by_cases hmem : pair ∈ stack
    · rw [if_pos hmem] at hp
      have hp' : p = (stack.dropWhile fun q => q ≠ pair) ++ [pair] := by
        simpa using hp
      subst hp'
      refine ⟨by simp, ?_⟩
      have hh : ((stack.dropWhile fun q => q ≠ pair) ++ [pair]).head? =
          some pair := by
        cases hd : stack.dropWhile fun q => q ≠ pair with
        | nil =>
          have := head?_dropWhile_ne pair stack hmem
          rw [hd] at this
          cases this
        | cons c cs =>
          have := head?_dropWhile_ne pair stack hmem
          rw [hd] at this
          simpa using this
      rw [hh, List.getLast?_append_cons]
      rfl
    · rw [if_neg hmem] at hp
      obtain ⟨l, hl, hpl⟩ := List.mem_flatten.mp hp
      obtain ⟨edge, _, hedge⟩ := List.mem_map.mp hl
      subst hedge
      exact ih (stack ++ [pair]) edge p hpl

/-- When `set` reports a circular reference, the reported paths are the
nonempty closed cycle paths of the search. -/
theorem setProp_circular (elems : List Elem) (eid : Nat) (name : String)
    (v : Expr) (paths : List (List (Nat × String)))
    (h : setProp elems eid name v = .error (.circular paths)) :
    paths ≠ [] ∧ ∀ p ∈ paths, p ≠ [] ∧ p.head? = p.getLast? := by
  unfold setProp at h
  cases he : getElemOpt elems eid with
  | none => simp only [he] at h; simp at h
  | some e =>
    simp only [he] at h
    cases hg : elemGet e name with
    | none => simp only [hg] at h; simp at h
    | some entry =>
      simp only [hg] at h
      by_cases hro : entry.readonly = true
      · simp [hro] at h
      · simp only [Bool.not_eq_true] at hro
        simp only [hro, Bool.false_eq_true, if_false] at h
        by_cases hco : entry.constant = true
        · simp [hco] at h
        · simp only [Bool.not_eq_true] at hco
          simp only [hco, Bool.false_eq_true, if_false] at h
          cases hc : findCyclesFrom (updatePropValue elems eid name v)
              (totalPairs (updatePropValue elems eid name v) + 2) []
              (eid, name) with
          | nil => simp only [hc] at h; simp at h
          | cons q qs =>
            simp only [hc] at h
            simp only [Except.error.injEq, ElemErr.circular.injEq] at h
            subst h
            refine ⟨by simp, ?_⟩
            intro p hp
            exact (findCyclesFrom_closed (updatePropValue elems eid name v)
              (totalPairs (updatePropValue elems eid name v) + 2) [] (eid, name)
              p (by rw [hc]; exact hp)).elim fun h1 h2 => ⟨h1, h2⟩

/-- Reduction of `_build_Assign` to the element-table `set` call, under the
frame: an active element, a defined property giving the type context, and a
successfully built value expression. -/
theorem buildAssign_reduces (funcs : FuncTable) (fs : String → Option SNode)
    (fuel : Nat) (st st1 : BuildState) (name : String) (vnode : SNode)
    (v : Expr) (eid0 : Nat) (e0 : Elem) (entry0 : PropEntry) (ty : String)
    (tys : List String) (eid : Nat) (e : Elem)
    (h0 : st.elemStack.getLast? = some eid0)
    (h1 : st.elems[eid0]? = some e0)
    (h2 : elemGet e0 name = some entry0)
    (h3 : entry0.types = ty :: tys)
    (h4 : buildNode funcs fs fuel
        { st with typeStack := st.typeStack ++ [ty] } vnode = .ok (st1, .val v))
    (h5 : st1.elemStack.getLast? = some eid)
    (h6 : st1.elems[eid]? = some e) :
    buildNode funcs fs (fuel + 1) st (.assignNode name vnode) =
      match setProp st1.elems eid name v with
      | .ok elems' =>
        .ok ({ st1 with typeStack := st1.typeStack.dropLast, elems := elems' },
          .noneRes)
      | .error (.readonlyErr _) =>
        .error (.sceneErr ("Cannot assign to readonly property " ++ pyrepr name
          ++ " in " ++ e.type) none)
      | .error (.constantErr n) =>
        .error (.sceneErr (propertyConstantMsg n ++ " in " ++ e.type) none)
      | .error (.circular paths) =>
        .error (.sceneErr (circularReferenceMsg ++ " in " ++ e.type)
          (some ("Paths:\n" ++ renderPaths paths)))
      | .error err => .error (.elemFail err) := by
  simp only [buildNode, h0, h1, h2, h3, h4, exceptBind_ok, h5, h6]

/-- C5: assigning to a property whose `ReadOnly` flag is set always fails
with the mutation-violation error of `_build_Assign` ("Cannot assign to
readonly property ... in <type>", `scenebuilder.py` lines 278-279); with
neither flag set and a value the property graph accepts (no cycle
introduced), the assignment succeeds by storing the new expression, so that
a subsequent `get` returns the new expression and evaluating the property
evaluates exactly it. -/
theorem assign_readonly_fails_writable_succeeds (funcs : FuncTable)
    (fs : String → Option SNode) (fuel : Nat) (st st1 : BuildState)
    (name : String) (vnode : SNode) (v : Expr)
    (eid0 : Nat) (e0 : Elem) (entry0 : PropEntry) (ty : String)
    (tys : List String) (eid : Nat) (e : Elem) (entry : PropEntry)
    (h0 : st.elemStack.getLast? = some eid0)
    (h1 : st.elems[eid0]? = some e0)
    (h2 : elemGet e0 name = some entry0)
    (h3 : entry0.types = ty :: tys)
    (h4 : buildNode funcs fs fuel
        { st with typeStack := st.typeStack ++ [ty] } vnode = .ok (st1, .val v))
    (h5 : st1.elemStack.getLast? = some eid)
    (h6 : st1.elems[eid]? = some e)
    (h7 : elemGet e name = some entry) :
    (entry.readonly = true →
      buildNode funcs fs (fuel + 1) st (.assignNode name vnode) =
        .error (.sceneErr ("Cannot assign to readonly property " ++ pyrepr name
          ++ " in " ++ e.type) none)) ∧
    (entry.readonly = false → entry.constant = false →
      findCyclesFrom (updatePropValue st1.elems eid name v)
          (totalPairs (updatePropValue st1.elems eid name v) + 2) []
          (eid, name) = [] →
      buildNode funcs fs (fuel + 1) st (.assignNode name vnode) =
        .ok
          ({ st1 with
              typeStack := st1.typeStack.dropLast
              elems := updatePropValue st1.elems eid name v },
            .noneRes) ∧
      (updatePropValue st1.elems eid name v)[eid]? =
        some { e with props := e.props.map fun p =>
          if p.name == name then { p with value := v } else p } ∧
      elemGet { e with props := e.props.map fun p =>
          if p.name == name then { p with value := v } else p } name =
        some { entry with value := v } ∧
      (entry.relative = none → ∀ fuel' : Nat,
        evalProp funcs (updatePropValue st1.elems eid name v) (fuel' + 1) []
            eid name =
          evalExpr funcs (updatePropValue st1.elems eid name v) fuel'
            [(eid, name)] v)) := by
  have hred := buildAssign_reduces funcs fs fuel st st1 name vnode v eid0 e0
    entry0 ty tys eid e h0 h1 h2 h3 h4 h5 h6
  constructor
  · intro hro
    rw [hred, setProp_readonly st1.elems eid name v e entry h6 h7 hro]
  · intro hro hco hcy
    have hup : (updatePropValue st1.elems eid name v)[eid]? =
        some { e with props := e.props.map fun p =>
          if p.name == name then { p with value := v } else p } := by
      simp [updatePropValue, getElem?_updateAt, h6]
    have hget : elemGet { e with props := e.props.map fun p =>
        if p.name == name then { p with value := v } else p } name =
        some { entry with value := v } := by
      simp only [elemGet]
      rw [find?_name_map_setValue]
      rw [show e.props.find? (fun p => p.name == name) = some entry from h7]
      rfl
    refine ⟨?_, hup, hget, ?_⟩
    · rw [hred, setProp_ok st1.elems eid name v e entry h6 h7 hro hco hcy]
    · intro hrel fuel'
      have := evalProp_step_no_relative funcs (updatePropValue st1.elems eid name v)
        fuel' eid name _ { entry with value := v } hup hget (by simpa using hrel)
      simpa using this

/-- C8: `Circle.on_ready` (`drawables.py` lines 51-76) defines `diameter`
as 100% relative to width and `radius` as `diameter / 2` (also relative to
width), and reassigns `width` and `height` to `radius * 2`; consequently,
assigning `diameter: 50%` on a Circle inside a parent of width 300 (here
through the `_build_Assign` path of the builder) makes `radius` evaluate to
75. -/
theorem circle_diameter_radius_defaults :
    circleOnReady c8Elems 1 = .ok c8Ready ∧
    ((c8Ready[1]?).bind (elemGet · "diameter")).map
        (fun p => (p.value, p.relative)) =
      some (.lit (.pct 100), some "width") ∧
    ((c8Ready[1]?).bind (elemGet · "radius")).map
        (fun p => (p.value, p.relative)) =
      some (.binOp "/" (.propRef 1 "diameter") (.lit (.num 2)), some "width") ∧
    ((c8Ready[1]?).bind (elemGet · "width")).map (·.value) =
      some (.binOp "*" (.propRef 1 "radius") (.lit (.num 2))) ∧
    ((c8Ready[1]?).bind (elemGet · "height")).map (·.value) =
      some (.binOp "*" (.propRef 1 "radius") (.lit (.num 2))) ∧
    buildNode noFuncs noFs 2 c8State
        (.assignNode "diameter" (.numberNode 50 (some "%"))) =
      .ok ({ c8State with elems := c8After }, .noneRes) ∧
    evalProp noFuncs c8After 50 [] 1 "radius" = .ok (.num 75) :=
  ⟨rfl, rfl, rfl, rfl, rfl, rfl, rfl⟩

/-- Witness for C5: on the fixture, assigning to the readonly `r` of the
Rectangle fails with the mutation-violation message, while assigning `5` to
the writable `p` succeeds and `get`-plus-evaluation yields the new
value. -/
theorem assign_readonly_fails_writable_succeeds_witness :
    (buildNode noFuncs noFs 2 fxState (.assignNode "r" (.numberNode 5 none)) =
      .error (.sceneErr "Cannot assign to readonly property 'r' in Rectangle"
        none)) ∧
    (buildNode noFuncs noFs 2 fxState (.assignNode "p" (.numberNode 5 none)) =
      .ok ({ fxState with
          elems := updatePropValue fxElems 0 "p" (.lit (.num 5)) }, .noneRes)) ∧
    evalProp noFuncs (updatePropValue fxElems 0 "p" (.lit (.num 5))) 9 [] 0 "p" =
      .ok (.num 5) := by
  refine ⟨?_, ?_, ?_⟩
  · exact (assign_readonly_fails_writable_succeeds noFuncs noFs 1 fxState
      { fxState with typeStack := fxState.typeStack ++ ["Number"] }
      "r" (.numberNode 5 none) (.lit (.num 5)) 0 fxElems[0]
      (fxProp "r" (.lit (.num 7)) true) "Number" [] 0 fxElems[0]
      (fxProp "r" (.lit (.num 7)) true)
      rfl rfl rfl rfl rfl rfl rfl rfl).1 rfl
  · exact ((assign_readonly_fails_writable_succeeds noFuncs noFs 1 fxState
      { fxState with typeStack := fxState.typeStack ++ ["Number"] }
      "p" (.numberNode 5 none) (.lit (.num 5)) 0 fxElems[0]
      (fxProp "p" (.lit (.num 1))) "Number" [] 0 fxElems[0]
      (fxProp "p" (.lit (.num 1)))
      rfl rfl rfl rfl rfl rfl rfl rfl).2 rfl rfl rfl).1
  · rfl

/-- C1: when an assignment's new expression would introduce a circular
property reference, `_build_Assign` (`scenebuilder.py` lines 282-284) fails
with the circular-reference error carrying, as its multi-line `after`
elaboration, the reported cycle paths ("Paths:" followed by each path's
property names joined by " -> "); every reported path is the ordered
sequence of (element, property) pairs from the first occurrence of the
repeated pair back to the repeat — nonempty, with its first and last pairs
equal. -/
theorem assign_cycle_reports_full_cycle (funcs : FuncTable)
    (fs : String → Option SNode) (fuel : Nat) (st st1 : BuildState)
    (name : String) (vnode : SNode) (v : Expr)
    (eid0 : Nat) (e0 : Elem) (entry0 : PropEntry) (ty : String)
    (tys : List String) (eid : Nat) (e : Elem)
    (paths : List (List (Nat × String)))
    (h0 : st.elemStack.getLast? = some eid0)
    (h1 : st.elems[eid0]? = some e0)
    (h2 : elemGet e0 name = some entry0)
    (h3 : entry0.types = ty :: tys)
    (h4 : buildNode funcs fs fuel
        { st with typeStack := st.typeStack ++ [ty] } vnode = .ok (st1, .val v))
    (h5 : st1.elemStack.getLast? = some eid)
    (h6 : st1.elems[eid]? = some e)
    (h7 : setProp st1.elems eid name v = .error (.circular paths)) :
    buildNode funcs fs (fuel + 1) st (.assignNode name vnode) =
      .error (.sceneErr (circularReferenceMsg ++ " in " ++ e.type)
        (some ("Paths:\n" ++ renderPaths paths))) ∧
    paths ≠ [] ∧ ∀ p ∈ paths, p ≠ [] ∧ p.head? = p.getLast? := by
  have hred := buildAssign_reduces funcs fs fuel st st1 name vnode v eid0 e0
    entry0 ty tys eid e h0 h1 h2 h3 h4 h5 h6
  refine ⟨by rw [hred, h7], ?_⟩
  exact setProp_circular st1.elems eid name v paths h7

/-- Witness for C1: on the fixture with the Circle active, `q: q` makes the
Circle's `q` reference itself; the build fails with the cycle path
`q -> q` attached, and the reported path `[(1, q), (1, q)]` is closed. -/
theorem assign_cycle_reports_full_cycle_witness :
    buildNode noFuncs noFs 2 fxStateC (.assignNode "q" (.nameNode "q")) =
      .error (.sceneErr "Circular reference detected in Circle"
        (some "Paths:\nq -> q")) ∧
    ([[((1 : Nat), "q"), (1, "q")]] : List (List (Nat × String))) ≠ [] ∧
    ∀ p ∈ ([[((1 : Nat), "q"), (1, "q")]] : List (List (Nat × String))),
      p ≠ [] ∧ p.head? = p.getLast? :=
  assign_cycle_reports_full_cycle noFuncs noFs 1 fxStateC
    { fxStateC with typeStack := fxStateC.typeStack ++ ["Number"] }
    "q" (.nameNode "q") (.propRef 1 "q") 1 fxElems[1]
    (fxProp "q" (.propRef 0 "p")) "Number" [] 1 fxElems[1]
    [[(1, "q"), (1, "q")]]
    rfl rfl rfl rfl rfl rfl rfl rfl

/-- Mutual-induction invariant for include-mode building: building an
`Include` or `Template` node, an include, or a scene in include mode leaves
the element arena and the in-progress include stack unchanged.  Requires
every parsed file to have a `Scene` root, as the parser guarantees. -/
theorem included_build_preserves (funcs : FuncTable)
    (fs : String → Option SNode)
    (hfs : ∀ fl t, fs fl = some t → ∃ cs, t = .scene cs) :
    ∀ fuel : Nat,
      (∀ st node st' r, isIncludeOrTemplate node = true →
          buildNode funcs fs fuel st node = .ok (st', r) →
          st'.elems = st.elems ∧ st'.including = st.including) ∧
      (∀ st fn st', includeFile funcs fs fuel st fn = .ok st' →
          st'.elems = st.elems ∧ st'.including = st.including) ∧
      (∀ st cs st' r, st.including ≠ [] →
          buildNode funcs fs fuel st (.scene cs) = .ok (st', r) →
          st'.elems = st.elems ∧ st'.including = st.including) ∧
      (∀ st cs st', buildIncludedChildren funcs fs fuel st cs = .ok st' →
          st'.elems = st.elems ∧ st'.including = st.including) := by
  intro fuel
  induction fuel with
  | zero =>
    refine ⟨?_, ?_, ?_, ?_⟩
    · intro st node st' r _ h; simp [buildNode] at h
    · intro st fn st' h; simp [includeFile] at h
    · intro st cs st' r _ h; simp [buildNode] at h
    · intro st cs st' h; simp [buildIncludedChildren] at h
  | succ fuel ih =>
    obtain ⟨ihA, ihB, ihC, ihD⟩ := ih
    have hB : ∀ st fn st', includeFile funcs fs (fuel + 1) st fn = .ok st' →
        st'.elems = st.elems ∧ st'.including = st.including := by
      intro st fn st' h
      rw [includeFile] at h
      by_cases hseen : (st.including.contains fn || st.included.contains fn) = true
      · rw [if_pos hseen] at h
        cases h
        exact ⟨rfl, rfl⟩
      · rw [if_neg hseen] at h
        cases hread : fs fn with
        | none => simp only [hread] at h; simp at h
        | some tree =>
          simp only [hread] at h
          obtain ⟨cs0, rfl⟩ := hfs fn tree hread
          cases hb : buildNode funcs fs fuel
              { st with
                searchPaths := st.searchPaths ++ [dirnameOf fn]
                including := st.including ++ [fn]
                reads := st.reads ++ [fn] } (.scene cs0) with
          | error e => rw [hb] at h; simp at h
          | ok p =>
            obtain ⟨st2, r2⟩ := p
            rw [hb] at h
            simp only [exceptBind_ok] at h
            cases h
            have hpres := ihC _ cs0 st2 r2 (by simp) hb
            refine ⟨hpres.1, ?_⟩
            simp only [hpres.2]
            simp [List.dropLast_concat]
    have hA : ∀ st node st' r, isIncludeOrTemplate node = true →
        buildNode funcs fs (fuel + 1) st node = .ok (st', r) →
        st'.elems = st.elems ∧ st'.including = st.including := by
      intro st node st' r hnode h
      cases node with
      | includeNode path =>
        cases hfind : findSceneFile (fun f => (fs f).isSome) st.searchPaths path with
        | error fnf => simp only [buildNode, hfind] at h; simp at h
        | ok filename =>
          simp only [buildNode, hfind] at h
          cases hincl : includeFile funcs fs fuel st filename with
          | error e => rw [hincl] at h; simp at h
          | ok st2 =>
            rw [hincl] at h
            simp only [exceptBind_ok, Except.ok.injEq, Prod.mk.injEq] at h
            obtain ⟨rfl, _⟩ := h
            exact ihB st filename st2 hincl
      | templateNode name inh tcs =>
        simp only [buildNode] at h
        by_cases hdup : (lookupTemplate st.templates name).isSome = true
        · rw [if_pos hdup] at h; simp at h
        · rw [if_neg hdup] at h
          cases h
          exact ⟨rfl, rfl⟩
      | scene cs0 => simp [isIncludeOrTemplate] at hnode
      | create a b c => simp [isIncludeOrTemplate] at hnode
      | defineNode a b => simp [isIncludeOrTemplate] at hnode
      | assignNode a b => simp [isIncludeOrTemplate] at hnode
      | memberAccess a b => simp [isIncludeOrTemplate] at hnode
      | unaryNode a b => simp [isIncludeOrTemplate] at hnode
      | binNode a b c => simp [isIncludeOrTemplate] at hnode
      | numberNode a b => simp [isIncludeOrTemplate] at hnode
      | stringNode a => simp [isIncludeOrTemplate] at hnode
      | callNode a b => simp [isIncludeOrTemplate] at hnode
      | nameNode a => simp [isIncludeOrTemplate] at hnode
    have hD : ∀ st cs st', buildIncludedChildren funcs fs (fuel + 1) st cs = .ok st' →
        st'.elems = st.elems ∧ st'.including = st.including := by
      intro st cs st' h
      cases cs with
      | nil =>
        simp only [buildIncludedChildren] at h
        cases h
        exact ⟨rfl, rfl⟩
      | cons c cs' =>
        simp only [buildIncludedChildren] at h
        by_cases hc : isIncludeOrTemplate c = true
        · rw [if_pos hc] at h
          cases hb : buildNode funcs fs fuel st c with
          | error e => rw [hb] at h; simp at h
          | ok p =>
            obtain ⟨st1, r1⟩ := p
            rw [hb] at h
            simp only [exceptBind_ok] at h
            have h1 := ihA st c st1 r1 hc hb
            have h2 := ihD st1 cs' st' h
            exact ⟨h2.1.trans h1.1, h2.2.trans h1.2⟩
        · rw [if_neg hc] at h
          exact ihD st cs' st' h
    refine ⟨hA, hB, ?_, hD⟩
    intro st cs st' r hne h
    have hemp : st.including.isEmpty = false := by
      cases hl : st.including with
      | nil => exact absurd hl hne
      | cons a l => rfl
    simp only [buildNode, hemp, Bool.false_eq_true, if_false] at h
    cases hbi : buildIncludedChildren funcs fs fuel st cs with
    | error e => rw [hbi] at h; simp at h
    | ok st2 =>
      rw [hbi] at h
      simp only [exceptBind_ok, Except.ok.injEq, Prod.mk.injEq] at h
      obtain ⟨rfl, _⟩ := h
      exact ihD st cs st2 hbi

/-- C10: when a file is built while the include stack is non-empty,
`_build_Scene` (`scenebuilder.py` lines 185-192) runs its include-mode
loop, which executes only `Include` and `Template` children — any other
top-level directive, in particular a `Create`, is skipped without effect —
and, provided every parsed file has a `Scene` root, a successful
include-mode build leaves the element arena unchanged: an included file can
register templates but never adds elements to the scene tree. -/
theorem included_scene_registers_only (funcs : FuncTable)
    (fs : String → Option SNode) (fuel : Nat) (st : BuildState)
    (cs : List SNode) (hinc : st.including ≠ []) :
    (buildNode funcs fs (fuel + 1) st (.scene cs) =
      match buildIncludedChildren funcs fs fuel st cs with
      | .ok st' => .ok (st', .noneRes)
      | .error e => .error e) ∧
    (∀ (c : SNode) (cs' : List SNode) (st0 : BuildState) (f : Nat),
      isIncludeOrTemplate c = false →
      buildIncludedChildren funcs fs (f + 1) st0 (c :: cs') =
        buildIncludedChildren funcs fs f st0 cs') ∧
    ((∀ fl t, fs fl = some t → ∃ cs0, t = .scene cs0) →
      ∀ st' r, buildNode funcs fs (fuel + 1) st (.scene cs) = .ok (st', r) →
        st'.elems = st.elems) := by
  have hemp : st.including.isEmpty = false := by
    cases hl : st.including with
    | nil => exact absurd hl hinc
    | cons a l => rfl
  refine ⟨?_, ?_, ?_⟩
  · simp only [buildNode, hemp, Bool.false_eq_true, if_false]
    cases hbi : buildIncludedChildren funcs fs fuel st cs <;> simp [hbi]
  · intro c cs' st0 f hc
    simp only [buildIncludedChildren, hc, Bool.false_eq_true, if_false]
  · intro hfs st' r h
    exact (((included_build_preserves funcs fs hfs (fuel + 1)).2.2.1)
      st cs st' r hinc h).1

/-- The fixture state mid-include. -/
def fxInclState : BuildState := { fxState with including := ["/a/f.anim"] }

/-- Witness for C10: in include mode a top-level `Create` is skipped (the
state survives unchanged, so no element is added), while a `Template` child
is registered. -/
theorem included_scene_registers_only_witness :
    buildNode noFuncs noFs 3 fxInclState (.scene [.create "Rectangle" "" []]) =
      .ok (fxInclState, .noneRes) ∧
    (∀ st' r,
      buildNode noFuncs noFs 3 fxInclState (.scene [.create "Rectangle" "" []]) =
        .ok (st', r) → st'.elems = fxInclState.elems) ∧
    buildNode noFuncs noFs 3 fxInclState (.scene [.templateNode "T" none []]) =
      .ok ({ fxInclState with
          templates := fxInclState.templates ++ [("T", .user none [])] },
        .noneRes) := by
  refine ⟨rfl, ?_, rfl⟩
  exact (included_scene_registers_only noFuncs noFs 2 fxInclState
    [.create "Rectangle" "" []] (by decide)).2.2 (fun fl t h => by cases h)

/-- Witness for C7: creating a `Scene` (not a drawable, not an animation)
under the active Rectangle parent of the fixture state. -/
theorem create_rejected_names_both_types_witness :
    getElementType fxState.templates (fxState.templates.length + 1) "Scene" =
        .ok "Scene" ∧
      addAccepts "Rectangle" "Scene" = false ∧
      buildNode noFuncs noFs 4 fxState (.create "Scene" "" []) =
        .error (.sceneErr "Cannot add Scene to Rectangle" none) :=
  ⟨rfl, by decide,
   create_rejected_names_both_types noFuncs noFs 2 fxState "Scene" "Scene" [] 0
     (fxElems[0]) rfl rfl rfl (by decide)⟩

end Textmation
